import Mathlib

/-!
Shallow embedding of the SR&ED agent-turn orchestration core
(`src/sred/orchestration/{state,nodes,graph}.py`) and proofs of the
frozen specification claims.

Modelling conventions:
* Python `Optional[T]` fields become `Option T`; Python truthiness of an
  optional string (`None` and `""` are falsy) is `optTruthy`.
* Machine timestamps (`datetime.now`, `time.time_ns`, durations) are
  abstract `Nat` parameters passed to the node that reads the clock.
* Pydantic `model_dump_json` serialization of the four context-packet
  lanes is library code outside the repository; the compiler is therefore
  parameterized by one serializer per lane and theorems quantify over them.
* The LangGraph state dict is the `GraphState` structure; keys written by
  nodes but absent from the TypedDict (`exit_requested`, `summary_text`,
  `finalized`, `final_payload`) are carried as fields, matching the
  observed LangGraph behaviour relied on by the repository tests.
* External collaborators (LLM completion, tool registry, business DB,
  gate truth, FTS backend) are parameters; observable call counts of the
  LLM / tool handlers are instrumented in `Sys`, mirroring the call
  counters used by the repository test doubles.
-/

namespace SRED

/-- Python truthiness of an `Optional[str]`: `None` and `""` are falsy. -/
def optTruthy : Option String → Bool
  | none => false
  | some s => !(s == "")

-- ---------------------------------------------------------------------------
-- state.py — ContextPacket lane sub-models
-- ---------------------------------------------------------------------------

/-- `ToolOutcome` from `state.py` (timestamp abstracted to `Nat`). -/
structure ToolOutcome where
  name : String
  success : Bool
  summary : String
  timestamp : Nat
deriving DecidableEq, Repr

/-- Lane 1 — `WorldSnapshot` (DB truth). -/
structure WorldSnapshot where
  run_id : Nat
  run_status : String
  file_count : Nat := 0
  files_processed : Nat := 0
  people_count : Nat := 0
  pending_rates : Nat := 0
  open_contradictions : Nat := 0
  open_tasks : Nat := 0
  active_locks : Nat := 0
  staging_total : Nat := 0
  staging_pending : Nat := 0
  staging_promoted : Nat := 0
  ledger_count : Nat := 0
  last_tool_outcomes : List ToolOutcome := []
deriving DecidableEq, Repr

/-- Lane 2 — `PersonAnchor` entries (hourly rate as `Option Rat`). -/
structure PersonAnchor where
  person_id : Nat
  name : String
  role : Option String := none
  hourly_rate : Option Rat := none
  rate_status : Option String := none
deriving DecidableEq, Repr

structure PeopleTimeAnchor where
  people : List PersonAnchor := []
  alias_confirmed : Nat := 0
  alias_total : Nat := 0
  timesheet_staging_rows : Nat := 0
  payroll_staging_rows : Nat := 0
deriving DecidableEq, Repr

/-- Lane 3 — `MemoryEntry`. -/
structure MemoryEntry where
  memory_id : Nat
  path : String
  snippet : String
  content_hash : String
deriving DecidableEq, Repr

structure MemorySummaries where
  entries : List MemoryEntry := []
deriving DecidableEq, Repr

/-- Lane 4 — `EvidenceItem` (score as `Option Rat`). -/
structure EvidenceItem where
  segment_id : Nat
  content : String
  source_file_id : Option Nat := none
  original_filename : Option String := none
  page_number : Option Nat := none
  row_number : Option Nat := none
  score : Option Rat := none
  source_type : Option String := none
deriving DecidableEq, Repr

structure EvidencePack where
  items : List EvidenceItem := []
  query_used : Option String := none
  retrieval_method : Option String := none
deriving DecidableEq, Repr

/-- `TokenBudget` with the defaults from `state.py`. -/
structure TokenBudget where
  world_snapshot : Nat := 800
  people_time_anchor : Nat := 1200
  memory_summaries : Nat := 1000
  evidence_pack : Nat := 3000
  total : Nat := 6000
deriving DecidableEq, Repr

instance : Inhabited TokenBudget := ⟨{}⟩

/-- `ContextPacket` — four optional lanes, a budget and a compiled-at time. -/
structure ContextPacket where
  world_snapshot : Option WorldSnapshot := none
  people_time_anchor : Option PeopleTimeAnchor := none
  memory_summaries : Option MemorySummaries := none
  evidence_pack : Option EvidencePack := none
  token_budget : TokenBudget := {}
  compiled_at : Option Nat := none
deriving DecidableEq, Repr

instance : Inhabited ContextPacket := ⟨{}⟩

-- ---------------------------------------------------------------------------
-- state.py — ToolRequest and PlannerDecision
-- ---------------------------------------------------------------------------

/-- `ToolRequest` — argument mapping modelled as a key/value association list. -/
structure ToolRequest where
  tool_name : String
  arguments : List (String × String) := []
  idempotency_key : Option String := none
deriving DecidableEq, Repr

/-- Raw field content of a `PlannerDecision` before the model validator runs. -/
structure PlannerDecision where
  done : Bool
  stop_reason : Option String := none
  draft_response : Option String := none
  tool_requests : List ToolRequest := []
  reasoning : String := ""
deriving DecidableEq, Repr

/-- `PlannerDecision.validate_consistency` — the pydantic after-validator.
Construction succeeds only when the mutual-exclusion invariant holds;
otherwise pydantic raises, modelled as `Except.error`. -/
def PlannerDecision.validate_consistency (d : PlannerDecision) :
    Except String PlannerDecision :=
  if d.done then
    if !(optTruthy d.stop_reason) then
      .error "done=True requires stop_reason"
    else if !(optTruthy d.draft_response) then
      .error "done=True requires draft_response"
    else if !d.tool_requests.isEmpty then
      .error "done=True must not have tool_requests"
    else .ok d
  else
    if d.tool_requests.isEmpty then
      .error "done=False requires at least one tool_request"
    else .ok d

/-- Whether an `Except` carries a value. -/
def exceptOk {ε α : Type} : Except ε α → Bool
  | .ok _ => true
  | .error _ => false

-- ---------------------------------------------------------------------------
-- Transcript messages, gate snapshot, review / final payloads
-- ---------------------------------------------------------------------------

/-- One `tool_calls` entry of a synthetic assistant message (`nodes.py`,
`tool_executor`): `\x7b"id", "type": "function", "function": \x7b"name", "arguments"\x7d\x7d`. -/
structure ToolCallSpec where
  id : String
  type : String
  name : String
  argumentsJson : String
deriving DecidableEq, Repr

/-- A transcript message: role-tagged dict with optional tool-call fields. -/
structure Message where
  role : String
  content : String
  tool_call_id : Option String := none
  tool_calls : List ToolCallSpec := []
deriving DecidableEq, Repr

/-- Gate snapshot rows (`_build_gate_snapshot`): projected contradiction dict. -/
structure ContraInfo where
  id : Nat
  issue_key : String
  ctype : String
  severity : String
  description : String
deriving DecidableEq, Repr

structure TaskInfo where
  id : Nat
  issue_key : String
  title : String
  severity : String
  status : String
deriving DecidableEq, Repr

structure LockInfo where
  id : Nat
  issue_key : String
  reason : String
  decision_id : Option Nat
deriving DecidableEq, Repr

/-- `_build_gate_snapshot` output: ordered lists; counts are their lengths. -/
structure GateSnapshot where
  blocking_contradictions : List ContraInfo := []
  required_tasks : List TaskInfo := []
  active_locks : List LockInfo := []
deriving DecidableEq, Repr

/-- `gate_evaluator`: blocked iff any count is positive. -/
def GateSnapshot.isBlocked (g : GateSnapshot) : Bool :=
  !(g.blocking_contradictions.isEmpty && g.required_tasks.isEmpty
    && g.active_locks.isEmpty)

/-- One required action built by `human_gate` (dict key per kind). -/
inductive RequiredAction where
  | resolveTask (task_id : Nat) (issue_key : String)
  | resolveContradiction (contradiction_id : Nat) (issue_key : String)
  | supersedeLock (lock_id : Nat) (issue_key : String)
deriving DecidableEq, Repr

/-- The `needs_review_payload` dict assembled by `human_gate`. -/
structure ReviewPayload where
  status : String
  run_id : Nat
  session_id : Option String
  thread_id : Option String
  required_actions : List RequiredAction
  missing_evidence : List (String × String)
  blocking_contradictions : List ContraInfo
  required_tasks : List TaskInfo
  active_locks : List LockInfo
  user_prompt : Option String := none
deriving DecidableEq, Repr

/-- The `final_payload` dict produced by `finalizer`. -/
structure FinalPayload where
  status : String
  message : String
  next_actions : List RequiredAction
deriving DecidableEq, Repr

/-- Result payload of a tool call: the handler result (canonical JSON) or the
`\x7b"error": msg\x7d` dict the executor substitutes on failure. -/
inductive ResultPayload where
  | payload (json : String)
  | errorPayload (msg : String)
deriving DecidableEq, Repr

/-- `json.dumps` of a result payload. -/
def ResultPayload.dumps : ResultPayload → String
  | .payload j => j
  | .errorPayload m => "\x7b\"error\": \"" ++ m ++ "\"\x7d"

/-- The `last_tool_result` dict written by `tool_executor`. -/
structure LastToolResult where
  tool_name : String
  arguments : List (String × String)
  result : ResultPayload
  success : Bool
  duration_ms : Nat
deriving DecidableEq, Repr

/-- One `ToolCallLog` row (the audit log written by `tool_executor`). -/
structure ToolLogEntry where
  run_id : Nat
  session_id : Option String
  thread_id : Option String
  tool_name : String
  arguments_json : String
  result_json : String
  success : Bool
  duration_ms : Nat
deriving DecidableEq, Repr

-- ---------------------------------------------------------------------------
-- state.py — GraphState and init_state
-- ---------------------------------------------------------------------------

/-- `GraphState` — the LangGraph state dict.  Optional dict keys are `Option`
fields (`none` = key absent or falsy-empty); keys with read defaults keep
those defaults (`stop_reason` "", `step_count` 0, `max_steps` 10). -/
structure GraphState where
  run_id : Nat
  session_id : Option String := none
  thread_id : Option String := none
  user_message : String := ""
  messages : List Message := []
  context_packet : Option ContextPacket := none
  tool_queue : List ToolRequest := []
  last_tool_result : Option LastToolResult := none
  gate_snapshot : Option GateSnapshot := none
  needs_review_payload : Option ReviewPayload := none
  stop_reason : String := ""
  is_blocked : Bool := false
  exit_requested : Bool := false
  errors : List String := []
  step_count : Nat := 0
  max_steps : Nat := 10
  summary_text : Option String := none
  finalized : Bool := false
  final_payload : Option FinalPayload := none
  graph_state_version : Nat := 1
deriving DecidableEq, Repr

/-- `make_thread_id`: deterministic `"run_id:session_id"`. -/
def make_thread_id (run_id : Nat) (session_id : String) : String :=
  toString run_id ++ ":" ++ session_id

/-- `init_state` from `state.py`. -/
def init_state (run_id : Nat) (session_id user_message : String)
    (max_steps : Nat := 10) : GraphState :=
  { run_id := run_id
    session_id := some session_id
    thread_id := some (make_thread_id run_id session_id)
    user_message := user_message
    messages := []
    context_packet := some {}
    tool_queue := []
    last_tool_result := none
    stop_reason := ""
    is_blocked := false
    errors := []
    step_count := 0
    max_steps := max_steps
    graph_state_version := 1 }

/-- `_current_packet`: reconstruct the packet from state or create a fresh one. -/
def currentPacket (s : GraphState) : ContextPacket :=
  s.context_packet.getD {}

-- ---------------------------------------------------------------------------
-- nodes.py — context_compiler
-- ---------------------------------------------------------------------------

/-- `_est_tokens`: rough token estimate, character count integer-divided by 4. -/
def estTokens (text : String) : Nat := text.length / 4

/-- One lane serializer per lane type, standing for pydantic
`model_dump_json` (library code outside the repository; the compiler only
ever compares its length against the budget). -/
structure Serializers where
  ws : WorldSnapshot → String
  pta : PeopleTimeAnchor → String
  ms : MemorySummaries → String
  ep : EvidencePack → String

/-- Fuel-indexed body of the per-lane `while` loop of `context_compiler`:
while the serialized size of the lane (with the current item list) exceeds
the budget and items remain, `pop()` the last element and re-serialize.
Each iteration shortens the list by one, so `items.length` fuel is enough
to reach the loop exit. -/
def trimGoAux {α : Type} (size : List α → Nat) (budget : Nat) :
    Nat → List α → List α
  | 0, items => items
  | fuel + 1, items =>
      if budget < size items && !items.isEmpty then
        trimGoAux size budget fuel items.dropLast
      else items

/-- The per-lane `while` loop, run with enough fuel to terminate exactly
as the unbounded Python loop does. -/
def trimGo {α : Type} (size : List α → Nat) (budget : Nat)
    (items : List α) : List α :=
  trimGoAux size budget items.length items

/-- The world-snapshot block of `context_compiler`: trim
`last_tool_outcomes` while the serialized lane exceeds its budget. -/
def compileWS (sz : Serializers) (budget : Nat) :
    Option WorldSnapshot → Option WorldSnapshot
  | none => none
  | some ws =>
      if ws.last_tool_outcomes ≠ [] then
        some { ws with
          last_tool_outcomes := trimGo
            (fun l => estTokens (sz.ws { ws with last_tool_outcomes := l }))
            budget ws.last_tool_outcomes }
      else some ws

/-- The anchor-lane block of `context_compiler`: trim the people list. -/
def compilePTA (sz : Serializers) (budget : Nat) :
    Option PeopleTimeAnchor → Option PeopleTimeAnchor
  | none => none
  | some pta =>
      if pta.people ≠ [] then
        some { pta with
          people := trimGo
            (fun l => estTokens (sz.pta { pta with people := l }))
            budget pta.people }
      else some pta

/-- The memory-summaries block of `context_compiler`: trim the entries. -/
def compileMS (sz : Serializers) (budget : Nat) :
    Option MemorySummaries → Option MemorySummaries
  | none => none
  | some ms =>
      if ms.entries ≠ [] then
        some { ms with
          entries := trimGo
            (fun l => estTokens (sz.ms { ms with entries := l }))
            budget ms.entries }
      else some ms

/-- The evidence-pack block of `context_compiler`: trim the items. -/
def compileEP (sz : Serializers) (budget : Nat) :
    Option EvidencePack → Option EvidencePack
  | none => none
  | some ep =>
      if ep.items ≠ [] then
        some { ep with
          items := trimGo
            (fun l => estTokens (sz.ep { ep with items := l }))
            budget ep.items }
      else some ep

/-- `context_compiler` from `nodes.py`, parameterized by the lane
serializers and the wall-clock instant `now` (`datetime.now(timezone.utc)`).
The four blocks run in sequence, each reading and writing only its own
lane against the fixed `token_budget`; `compiled_at` is set
unconditionally at the end, even when nothing was trimmed. -/
def context_compiler (sz : Serializers) (now : Nat)
    (packet : ContextPacket) : ContextPacket :=
  let budget := packet.token_budget
  { packet with
    world_snapshot := compileWS sz budget.world_snapshot packet.world_snapshot
    people_time_anchor := compilePTA sz budget.people_time_anchor packet.people_time_anchor
    memory_summaries := compileMS sz budget.memory_summaries packet.memory_summaries
    evidence_pack := compileEP sz budget.evidence_pack packet.evidence_pack
    compiled_at := some now }

-- ---------------------------------------------------------------------------
-- nodes.py — retrieve_evidence_pack
-- ---------------------------------------------------------------------------

/-- The characters Python `str.strip()` removes, per the CPython
whitespace predicate: the ASCII whitespace controls 0x09-0x0D, the
separator controls 0x1C-0x1F, the space 0x20, and the Unicode whitespace
set — next line 0x85, no-break space 0xA0, Ogham space mark 0x1680, the
spaces 0x2000-0x200A, line separator 0x2028, paragraph separator 0x2029,
narrow no-break space 0x202F, medium mathematical space 0x205F and
ideographic space 0x3000. -/
def isPyWhitespace (c : Char) : Bool :=
  (0x09 ≤ c.toNat && c.toNat ≤ 0x0d) ||
  (0x1c ≤ c.toNat && c.toNat ≤ 0x1f) ||
  c.toNat == 0x20 ||
  c.toNat == 0x85 ||
  c.toNat == 0xa0 ||
  c.toNat == 0x1680 ||
  (0x2000 ≤ c.toNat && c.toNat ≤ 0x200a) ||
  c.toNat == 0x2028 ||
  c.toNat == 0x2029 ||
  c.toNat == 0x202f ||
  c.toNat == 0x205f ||
  c.toNat == 0x3000

/-- Python `not s.strip()`: blank or whitespace-only. -/
def isBlank (s : String) : Bool :=
  s.toList.all isPyWhitespace

/-- One row of the raw `segment_fts MATCH` query: `(id, snippet(...))`.
The second column is the SQLite `snippet()` highlight, a TEXT value. -/
structure FtsRow where
  segId : Nat
  snippet : String
deriving DecidableEq, Repr

/-- `Segment` columns read by `retrieve_evidence_pack`. -/
structure SegmentRec where
  id : Nat
  content : String
  file_id : Option Nat := none
  source_file_id : Option Nat := none
  page_number : Option Nat := none
  row_number : Option Nat := none
deriving DecidableEq, Repr

/-- `File` columns read for provenance. -/
structure FileRec where
  id : Nat
  original_filename : Option String := none
  mime_type : Option String := none
deriving DecidableEq, Repr

/-- The retrieval collaborator: the FTS backend (ranked rows per query)
and `session.get` lookups for segments and files. -/
structure RetrievalDB where
  fts : String → List FtsRow
  segments : Nat → Option SegmentRec
  files : Nat → Option FileRec

/-- `retrieve_evidence_pack` from `nodes.py`.  Returns the updated packet
together with the number of FTS backend calls made (0 or 1).  A hit whose
segment row has disappeared is silently dropped; `score` stays `none`
because the second SQL column is TEXT, never an int/float. -/
def retrieve_evidence_pack (db : RetrievalDB) (s : GraphState) :
    ContextPacket × Nat :=
  let user_message := s.user_message
  if isBlank user_message then
    let pack : EvidencePack :=
      { items := [], query_used := none, retrieval_method := some "fts" }
    ({ currentPacket s with evidence_pack := some pack }, 0)
  else
    let fts_results := (db.fts user_message).take 10
    let items := fts_results.filterMap fun row =>
      match db.segments row.segId with
      | none => none
      | some segment =>
          let file_obj := match segment.file_id with
            | some fid => db.files fid
            | none => none
          some ({ segment_id := row.segId
                  content := segment.content
                  source_file_id := segment.source_file_id
                  original_filename := file_obj.bind (·.original_filename)
                  page_number := segment.page_number
                  row_number := segment.row_number
                  score := none
                  source_type := file_obj.bind (·.mime_type) } : EvidenceItem)
    let pack : EvidencePack :=
      { items := items, query_used := some user_message,
        retrieval_method := some "fts" }
    ({ currentPacket s with evidence_pack := some pack }, 1)

-- ---------------------------------------------------------------------------
-- The orchestrated system: graph state + session business data + audit log
-- ---------------------------------------------------------------------------

/-- A tool handler resolved from the capability registry: takes the current
business data and the run id and arguments, and either returns a result
payload together with the mutated business data (committed), or raises
(`Except.error`, rolled back).  `β` is the abstract business-data state
behind the SQLAlchemy session. -/
def ToolHandler (β : Type) : Type :=
  β → Nat → List (String × String) → Except String (ResultPayload × β)

/-- The whole observable system threaded through the graph: the LangGraph
state, the session business data, the persisted audit log, and the
observable call counters of the external collaborators (the counters mirror
the `call_count` bookkeeping of the repository test doubles). -/
structure Sys (β : Type) where
  gs : GraphState
  business : β
  tool_logs : List ToolLogEntry := []
  llm_calls : Nat := 0
  planner_calls : Nat := 0
  tool_iterations : Nat := 0

/-- `json.dumps(arguments, sort_keys=True, default=str)` — canonical JSON of
the argument mapping; key-sorted association list rendered opaquely. -/
def dumpsSorted (args : List (String × String)) : String :=
  let sorted := args.mergeSort (fun a b => a.1 ≤ b.1)
  "\x7b" ++ String.intercalate ", "
    (sorted.map (fun kv => "\"" ++ kv.1 ++ "\": \"" ++ kv.2 ++ "\"")) ++ "\x7d"

-- ---------------------------------------------------------------------------
-- nodes.py — tool_executor
-- ---------------------------------------------------------------------------

/-- The thread-id defaulting done by `tool_executor` and `human_gate`:
derive the thread id from run and session when the state has none. -/
def execThreadId (s : GraphState) : Option String :=
  match s.thread_id, s.session_id with
  | none, some sid => some (make_thread_id s.run_id sid)
  | tid, _ => tid

/-- The external call id of one tool call: the idempotency key when
supplied, else a generated `tool_call_run_timestamp` identifier. -/
def execCallId (request : ToolRequest) (s : GraphState) (timeNs : Nat) : String :=
  request.idempotency_key.getD
    ("tool_call_" ++ toString s.run_id ++ "_" ++ toString timeNs)

/-- `tool_executor` from `nodes.py`.  `registry` is the capability registry
(`get_tool_handler`, raising `KeyError` = `none`); `timeNs` is the
`time.time_ns()` reading used for a generated call id and `durationMs` the
measured handler duration.  An empty queue returns the empty update `\x7b\x7d`.
The queue in this embedding holds well-typed `ToolRequest` values, so the
`ToolRequest.model_validate` guard never fails. -/
def tool_executor {β : Type} (registry : String → Option (ToolHandler β))
    (timeNs durationMs : Nat) (sys : Sys β) : Sys β :=
  let s := sys.gs
  let thread_id := execThreadId s
  match s.tool_queue with
  | [] => sys
  | request :: rest =>
      let tool_name := request.tool_name
      let arguments := request.arguments
      let args_json := dumpsSorted arguments
      let tool_call_id := execCallId request s timeNs
      let outcome : ResultPayload × Bool × β :=
        match registry tool_name with
        | none =>
            (.errorPayload ("Unknown tool: " ++ tool_name), false, sys.business)
        | some handler =>
            match handler sys.business s.run_id arguments with
            | .error exc => (.errorPayload exc, false, sys.business)
            | .ok (res, b2) => (res, true, b2)
      let result := outcome.1
      let success := outcome.2.1
      let business2 := outcome.2.2
      let tool_log : ToolLogEntry :=
        { run_id := s.run_id
          session_id := s.session_id
          thread_id := thread_id
          tool_name := tool_name
          arguments_json := args_json
          result_json := result.dumps.take 4000
          success := success
          duration_ms := durationMs }
      let assistant_tool_call_message : Message :=
        { role := "assistant", content := ""
          tool_calls := [{ id := tool_call_id, type := "function",
                           name := tool_name, argumentsJson := args_json }] }
      let tool_message : Message :=
        { role := "tool", content := result.dumps,
          tool_call_id := some tool_call_id }
      { sys with
        business := business2
        tool_logs := sys.tool_logs ++ [tool_log]
        tool_iterations := sys.tool_iterations + 1
        gs := { s with
          tool_queue := rest
          last_tool_result := some
            { tool_name := tool_name, arguments := arguments,
              result := result, success := success, duration_ms := durationMs }
          messages := s.messages ++ [assistant_tool_call_message, tool_message]
          errors := if success then s.errors
                    else s.errors ++ ["Tool " ++ tool_name ++ " failed"]
          thread_id := thread_id } }

-- ---------------------------------------------------------------------------
-- nodes.py — gate_evaluator, human_gate, summarizer, finalizer
-- ---------------------------------------------------------------------------

/-- `gate_evaluator`: stateless recomputation of the gate snapshot from the
durable business data (`gate` models `_build_gate_snapshot` over the DB). -/
def gate_evaluator {β : Type} (gate : β → GateSnapshot) (sys : Sys β) : Sys β :=
  let snapshot := gate sys.business
  { sys with gs := { sys.gs with
      gate_snapshot := some snapshot
      is_blocked := snapshot.isBlocked } }

/-- Most recent assistant message with non-empty content (used by
`human_gate` and `finalizer`); `""` when there is none. -/
def lastAssistantContent (msgs : List Message) : String :=
  match msgs.reverse.find? (fun m => m.role == "assistant" && m.content != "") with
  | some m => m.content
  | none => ""

/-- `human_gate` from `nodes.py`: builds the strict `NEEDS_REVIEW` payload. -/
def human_gate {β : Type} (gate : β → GateSnapshot) (sys : Sys β) : Sys β :=
  let s := sys.gs
  let thread_id := execThreadId s
  let prior_stop_reason := s.stop_reason
  let snapshot := s.gate_snapshot.getD (gate sys.business)
  let required_actions : List RequiredAction :=
    snapshot.required_tasks.map (fun t => .resolveTask t.id t.issue_key)
    ++ snapshot.blocking_contradictions.map
        (fun c => .resolveContradiction c.id c.issue_key)
    ++ snapshot.active_locks.map (fun lk => .supersedeLock lk.id lk.issue_key)
  let missing_evidence :=
    (snapshot.blocking_contradictions.filter
        (fun c => c.ctype == "MISSING_EVIDENCE")).map
      (fun c => (c.issue_key, c.description))
  let ask_user_prompt :=
    if prior_stop_reason = "ask_user" then lastAssistantContent s.messages else ""
  let payload : ReviewPayload :=
    { status := "NEEDS_REVIEW"
      run_id := s.run_id
      session_id := s.session_id
      thread_id := thread_id
      required_actions := required_actions
      missing_evidence := missing_evidence
      blocking_contradictions := snapshot.blocking_contradictions
      required_tasks := snapshot.required_tasks
      active_locks := snapshot.active_locks
      user_prompt := if ask_user_prompt ≠ "" then some ask_user_prompt else none }
  { sys with gs := { s with
      is_blocked := true
      stop_reason := if prior_stop_reason = "ask_user" then "ask_user" else "blocked"
      gate_snapshot := some snapshot
      needs_review_payload := some payload
      thread_id := thread_id } }

/-- `summarizer`: deterministic one-line status from stop reason / last tool
outcome (no LLM call). -/
def summarizer {β : Type} (sys : Sys β) : Sys β :=
  let s := sys.gs
  let summary :=
    if s.stop_reason = "blocked" then "Turn paused for human review."
    else if s.stop_reason = "error" then "Turn stopped due to an error."
    else if s.stop_reason = "max_steps" then "Turn stopped after reaching max steps."
    else match s.last_tool_result with
      | some ltr =>
          "Executed tool " ++ ltr.tool_name ++ " ("
            ++ (if ltr.success then "success" else "failed") ++ ")."
      | none => "Turn complete."
  { sys with gs := { s with summary_text := some summary } }

/-- `finalizer` on the graph state alone (it reads and writes no collaborator). -/
def finalizerState (s : GraphState) : GraphState :=
  let assistant_message := lastAssistantContent s.messages
  let payload : FinalPayload :=
    if s.stop_reason = "error" ∨ s.stop_reason = "max_steps" then
      { status := "ERROR"
        message := match s.errors.getLast? with
          | some e => e
          | none => "Agent stopped with reason: " ++ s.stop_reason
        next_actions := [] }
    else if s.stop_reason = "ask_user" ∨ s.is_blocked ∨ s.stop_reason = "blocked" then
      { status := "NEEDS_REVIEW"
        message := if assistant_message ≠ "" then assistant_message
                   else "Human review required before continuing."
        next_actions := match s.needs_review_payload with
          | some rp => rp.required_actions
          | none => [] }
    else
      { status := "OK"
        message := if assistant_message ≠ "" then assistant_message
                   else s.summary_text.getD "Turn complete."
        next_actions := [] }
  { s with finalized := true, final_payload := some payload }

/-- `finalizer` lifted to the system. -/
def finalizer {β : Type} (sys : Sys β) : Sys β :=
  { sys with gs := finalizerState sys.gs }

-- ---------------------------------------------------------------------------
-- nodes.py — planner
-- ---------------------------------------------------------------------------

/-- Parsing the raw LLM text as a `PlannerDecision`
(`PlannerDecision.model_validate_json`): `none` models JSON that fails to
parse against the schema; a parsed value must still pass the model
validator.  Any decision the planner acts on therefore satisfies the
construction invariant. -/
def parseDecision : Option PlannerDecision → Except String PlannerDecision
  | none => .error "invalid JSON"
  | some d => d.validate_consistency

/-- `planner` from `nodes.py`.  `llm` is the LLM collaborator, indexed by
how many LLM calls were made before (the test doubles replay responses by
call count); `validNames` is `_get_valid_tool_names()` at call time. -/
def planner {β : Type} (llm : Nat → Option PlannerDecision)
    (validNames : List String) (sys : Sys β) : Sys β :=
  let s := sys.gs
  let sys := { sys with planner_calls := sys.planner_calls + 1 }
  if s.max_steps ≤ s.step_count then
    { sys with gs := { s with
        stop_reason := "max_steps", tool_queue := [], exit_requested := true } }
  else
    let raw := llm sys.llm_calls
    let sys := { sys with llm_calls := sys.llm_calls + 1 }
    match parseDecision raw with
    | .error exc =>
        { sys with gs := { s with
            stop_reason := "error"
            errors := s.errors ++ ["Planner parse error: " ++ exc]
            tool_queue := [], exit_requested := true } }
    | .ok decision =>
        let unknown :=
          if decision.done then none
          else decision.tool_requests.find?
            (fun tr => !(validNames.contains tr.tool_name))
        match unknown with
        | some tr =>
            { sys with gs := { s with
                stop_reason := "error"
                errors := s.errors ++ ["Unknown tool: " ++ tr.tool_name]
                tool_queue := [], exit_requested := true } }
        | none =>
            if decision.done then
              let assistant_msg : Message :=
                { role := "assistant", content := decision.draft_response.getD "" }
              { sys with gs := { s with
                  stop_reason := decision.stop_reason.getD ""
                  messages := s.messages ++ [assistant_msg]
                  tool_queue := [], exit_requested := true } }
            else
              { sys with gs := { s with
                  tool_queue := decision.tool_requests
                  step_count := s.step_count + 1
                  exit_requested := false } }

-- ---------------------------------------------------------------------------
-- graph.py — wiring and routing
-- ---------------------------------------------------------------------------

/-- Graph nodes.  The five deterministic context nodes
(`load_world_snapshot` through `context_compiler`) each return only a
`context_packet` update, so they are collapsed into the single
`contextBuild` node driven by an abstract packet builder. -/
inductive Node where
  | contextBuild
  | plannerNode
  | toolExecutor
  | gateEvaluator
  | humanGate
  | summarizerNode
  | finalizerNode
  | terminal
deriving DecidableEq, Repr

/-- `_route_after_planner`: tool loop when the queue is non-empty. -/
def route_after_planner (s : GraphState) : Node :=
  if !s.tool_queue.isEmpty then .toolExecutor else .gateEvaluator

/-- `_route_after_gate` with the conditional-edge target mapping of
`build_graph` ("blocked" to human gate, "continue_tool_loop" back to
`load_world_snapshot`, "finalize" to the summarizer). -/
def route_after_gate (s : GraphState) : Node :=
  if s.exit_requested ∧ (s.stop_reason = "error" ∨ s.stop_reason = "max_steps") then
    .summarizerNode
  else if s.is_blocked then .humanGate
  else if s.exit_requested then .summarizerNode
  else .contextBuild

/-- All external collaborators of one compiled graph. -/
structure GraphEnv (β : Type) where
  llm : Nat → Option PlannerDecision
  validNames : List String
  registry : String → Option (ToolHandler β)
  gate : β → GateSnapshot
  buildPacket : Sys β → ContextPacket
  timeNs : Nat
  durationMs : Nat

/-- One transition of the compiled state machine: run the node the control
is at, then follow the (conditional) edge out of it. -/
def stepGraph {β : Type} (env : GraphEnv β) :
    Node → Sys β → Node × Sys β
  | .contextBuild, sys =>
      (.plannerNode,
        { sys with gs := { sys.gs with context_packet := some (env.buildPacket sys) } })
  | .plannerNode, sys =>
      let sys2 := planner env.llm env.validNames sys
      (route_after_planner sys2.gs, sys2)
  | .toolExecutor, sys =>
      (.gateEvaluator, tool_executor env.registry env.timeNs env.durationMs sys)
  | .gateEvaluator, sys =>
      let sys2 := gate_evaluator env.gate sys
      (route_after_gate sys2.gs, sys2)
  | .humanGate, sys => (.summarizerNode, human_gate env.gate sys)
  | .summarizerNode, sys => (.finalizerNode, summarizer sys)
  | .finalizerNode, sys => (.terminal, finalizer sys)
  | .terminal, sys => (.terminal, sys)

/-- Run the state machine for at most `fuel` transitions. -/
def runGraph {β : Type} (env : GraphEnv β) :
    Nat → Node → Sys β → Node × Sys β
  | 0, n, sys => (n, sys)
  | fuel + 1, n, sys =>
      if n = .terminal then (n, sys)
      else
        let next := stepGraph env n sys
        runGraph env fuel next.1 next.2

-- ---------------------------------------------------------------------------
-- Specification-side finalizer (transcribed from the spec wording, to be
-- compared against the source finalizer)
-- ---------------------------------------------------------------------------

/-- Spec transcription: `ERROR` when stop reason is `error` or `max_steps`,
`NEEDS_REVIEW` when stop reason is `ask_user`, the blocked flag is set, or
stop reason is `blocked`, otherwise `OK`. -/
def specFinalStatus (s : GraphState) : String :=
  if s.stop_reason = "error" ∨ s.stop_reason = "max_steps" then "ERROR"
  else if s.stop_reason = "ask_user" ∨ s.is_blocked ∨ s.stop_reason = "blocked" then
    "NEEDS_REVIEW"
  else "OK"

/-- Spec transcription of the terminal message: for `ERROR` the last
recorded error when the error list is non-empty, else the generic stopped
message; for `NEEDS_REVIEW` the most recent assistant content, else the
generic review prompt; for `OK` the most recent assistant content, else
the summarizer text. -/
def specFinalMessage (s : GraphState) : String :=
  if s.stop_reason = "error" ∨ s.stop_reason = "max_steps" then
    if h : s.errors ≠ [] then s.errors.getLast h
    else "Agent stopped with reason: " ++ s.stop_reason
  else if s.stop_reason = "ask_user" ∨ s.is_blocked ∨ s.stop_reason = "blocked" then
    if lastAssistantContent s.messages ≠ "" then lastAssistantContent s.messages
    else "Human review required before continuing."
  else
    if lastAssistantContent s.messages ≠ "" then lastAssistantContent s.messages
    else s.summary_text.getD "Turn complete."

/-- Spec transcription of `next_actions`: for `NEEDS_REVIEW` the
required-actions list carried in the needs-review payload, else empty. -/
def specFinalNextActions (s : GraphState) : List RequiredAction :=
  if s.stop_reason = "error" ∨ s.stop_reason = "max_steps" then []
  else if s.stop_reason = "ask_user" ∨ s.is_blocked ∨ s.stop_reason = "blocked" then
    match s.needs_review_payload with
    | some rp => rp.required_actions
    | none => []
  else []

-- ---------------------------------------------------------------------------
-- Invariant for the bounded-termination run and concrete fixtures
-- ---------------------------------------------------------------------------

/-- Invariant at each re-entry of the tool loop head (`load_world_snapshot`)
for a run whose planner always requests a tool: after `k` completed
iterations the step counter and the three collaborator call counters all
equal `k` and no stop reason is set. -/
def C1Inv {β : Type} (N k : Nat) (sys : Sys β) : Prop :=
  sys.gs.step_count = k ∧ sys.gs.max_steps = N ∧ sys.gs.stop_reason = "" ∧
  sys.llm_calls = k ∧ sys.planner_calls = k ∧ sys.tool_iterations = k

/-- Serializers that render every lane as the empty string (a concrete
instantiation used to evaluate theorems on concrete packets). -/
def zeroSerializers : Serializers :=
  { ws := fun _ => "", pta := fun _ => "", ms := fun _ => "", ep := fun _ => "" }

/-- Serializers measuring forty characters per element of the trimmable
list, used to exercise actual trimming on concrete packets. -/
def countSerializers : Serializers :=
  { ws := fun w => String.mk (List.replicate (40 * w.last_tool_outcomes.length) 'x')
    pta := fun p => String.mk (List.replicate (40 * p.people.length) 'x')
    ms := fun m => String.mk (List.replicate (40 * m.entries.length) 'x')
    ep := fun e => String.mk (List.replicate (40 * e.items.length) 'x') }

/-- A concrete world snapshot with two recorded tool outcomes. -/
def wsFixture : WorldSnapshot :=
  { run_id := 1, run_status := "PROCESSING"
    last_tool_outcomes := [
      { name := "people_list", success := true, summary := "ok", timestamp := 10 },
      { name := "files_list", success := false, summary := "boom", timestamp := 11 }] }

/-- A concrete context packet holding `wsFixture` and default budget. -/
def packetFixture : ContextPacket :=
  { world_snapshot := some wsFixture }

/-- A planner decision that requests the registered tool `people_list`. -/
def decisionLoop : PlannerDecision :=
  { done := false
    tool_requests := [{ tool_name := "people_list" }]
    reasoning := "Need people snapshot" }

/-- A planner decision that requests a tool absent from the registry. -/
def decisionUnknown : PlannerDecision :=
  { done := false
    tool_requests := [{ tool_name := "nonexistent_tool" }]
    reasoning := "trying unknown" }

/-- Graph collaborators for the bounded-termination scenario: the LLM
always answers with `decisionLoop`, `people_list` is registered with a
handler that succeeds, and the gate truth reports no blocking conditions. -/
def loopEnv : GraphEnv Unit :=
  { llm := fun _ => some decisionLoop
    validNames := ["people_list"]
    registry := fun nm =>
      if nm = "people_list" then some (fun b _ _ => .ok (.payload "[]", b)) else none
    gate := fun _ => {}
    buildPacket := fun _ => {}
    timeNs := 0
    durationMs := 0 }

/-- Fresh system for a turn of `run 1`, session `s1`, ceiling 1. -/
def loopSys0 : Sys Unit :=
  { gs := init_state 1 "s1" "list people" 1, business := () }

/-- System whose planner faces `decisionUnknown` (for the unknown-tool path). -/
def unknownSys0 : Sys Unit :=
  { gs := init_state 1 "s1" "go", business := () }

/-- System whose queue holds one request for an unregistered tool (for the
executor failure path). -/
def failExecSys0 : Sys Unit :=
  { gs := { init_state 1 "s1" "go" with
            tool_queue := [{ tool_name := "missing_tool" }] }
    business := () }

/-- System with an empty tool queue (for the executor frame property). -/
def emptyQueueSys0 : Sys Unit :=
  { gs := init_state 7 "s2" "hello", business := () }

/-- A retrieval collaborator with one indexed segment owned by one file. -/
def retrievalFixture : RetrievalDB :=
  { fts := fun _ => [{ segId := 3, snippet := "hit" }]
    segments := fun i =>
      if i = 3 then
        some { id := 3, content := "hours worked", file_id := some 5,
               source_file_id := some 5, page_number := some 1, row_number := none }
      else none
    files := fun i =>
      if i = 5 then
        some { id := 5, original_filename := some "t.csv", mime_type := some "text/csv" }
      else none }

/-- Graph state whose instruction text is empty (Scenario E). -/
def blankMsgState : GraphState := init_state 1 "s1" ""

-- =========================================================================
-- Shared helper lemmas
-- =========================================================================

/-- Characterization of a successful `PlannerDecision` validation: the
validator returns the decision itself exactly when the mutual-exclusion
invariant holds. -/
theorem validate_ok_iff (d e : PlannerDecision) :
    d.validate_consistency = .ok e ↔
      (e = d ∧
        ((d.done = true ∧ optTruthy d.stop_reason = true ∧
            optTruthy d.draft_response = true ∧ d.tool_requests = []) ∨
         (d.done = false ∧ d.tool_requests ≠ []))) := by
  unfold PlannerDecision.validate_consistency
  cases hd : d.done with
  | false =>
      cases dtr : d.tool_requests with
      | nil => simp [hd, dtr]
      | cons a l =>
          simp [hd, dtr]
          exact eq_comm
  | true =>
      cases h1 : optTruthy d.stop_reason with
      | false => simp [hd, h1]
      | true =>
          cases h2 : optTruthy d.draft_response with
          | false => simp [hd, h1, h2]
          | true =>
              cases dtr : d.tool_requests with
              | nil =>
                  simp [hd, h1, h2, dtr]
                  exact eq_comm
              | cons a l => simp [hd, h1, h2, dtr]

/-- A truthy optional string produces a non-empty `getD ""`. -/
theorem optTruthy_getD (o : Option String) (h : optTruthy o = true) :
    o.getD "" ≠ "" := by
  cases o with
  | none => simp [optTruthy] at h
  | some s =>
      simp only [optTruthy, Bool.not_eq_true'] at h
      simpa using fun hc => by simp [hc] at h

/-- `parseDecision` only succeeds with a decision satisfying the invariant. -/
theorem parseDecision_ok (raw : Option PlannerDecision) (d : PlannerDecision)
    (h : parseDecision raw = .ok d) :
    raw = some d ∧
      ((d.done = true ∧ optTruthy d.stop_reason = true ∧
          optTruthy d.draft_response = true ∧ d.tool_requests = []) ∨
       (d.done = false ∧ d.tool_requests ≠ [])) := by
  cases raw with
  | none => simp [parseDecision] at h
  | some d0 =>
      have := (validate_ok_iff d0 d).mp h
      obtain ⟨he, hinv⟩ := this
      subst he
      exact ⟨rfl, hinv⟩

/-- Branch lemma: the step-ceiling guard short-circuits the planner. -/
theorem planner_guard_eq {β : Type} (llm : Nat → Option PlannerDecision)
    (vn : List String) (sys : Sys β)
    (h : sys.gs.max_steps ≤ sys.gs.step_count) :
    planner llm vn sys =
      { sys with
        planner_calls := sys.planner_calls + 1
        gs := { sys.gs with
                stop_reason := "max_steps"
                tool_queue := []
                exit_requested := true } } := by
  simp only [planner, if_pos h]

/-- Branch lemma: a parse/validation failure is fatal for the turn. -/
theorem planner_parse_error_eq {β : Type} (llm : Nat → Option PlannerDecision)
    (vn : List String) (sys : Sys β) (e : String)
    (hguard : ¬ sys.gs.max_steps ≤ sys.gs.step_count)
    (hparse : parseDecision (llm sys.llm_calls) = .error e) :
    planner llm vn sys =
      { sys with
        llm_calls := sys.llm_calls + 1
        planner_calls := sys.planner_calls + 1
        gs := { sys.gs with
                stop_reason := "error"
                errors := sys.gs.errors ++ ["Planner parse error: " ++ e]
                tool_queue := []
                exit_requested := true } } := by
  simp only [planner, if_neg hguard, hparse]

/-- Branch lemma: a not-done decision naming an unregistered tool is fatal. -/
theorem planner_unknown_tool_eq {β : Type} (llm : Nat → Option PlannerDecision)
    (vn : List String) (sys : Sys β) (d : PlannerDecision) (tr : ToolRequest)
    (hguard : ¬ sys.gs.max_steps ≤ sys.gs.step_count)
    (hparse : parseDecision (llm sys.llm_calls) = .ok d)
    (hdone : d.done = false)
    (hfind : d.tool_requests.find? (fun r => !(vn.contains r.tool_name)) = some tr) :
    planner llm vn sys =
      { sys with
        llm_calls := sys.llm_calls + 1
        planner_calls := sys.planner_calls + 1
        gs := { sys.gs with
                stop_reason := "error"
                errors := sys.gs.errors ++ ["Unknown tool: " ++ tr.tool_name]
                tool_queue := []
                exit_requested := true } } := by
  simp only [planner, if_neg hguard, hparse, hdone, Bool.false_eq_true, if_false, hfind]

/-- Branch lemma: a valid done decision appends the draft response and
requests exit with the decision stop reason. -/
theorem planner_done_eq {β : Type} (llm : Nat → Option PlannerDecision)
    (vn : List String) (sys : Sys β) (d : PlannerDecision)
    (hguard : ¬ sys.gs.max_steps ≤ sys.gs.step_count)
    (hparse : parseDecision (llm sys.llm_calls) = .ok d)
    (hdone : d.done = true) :
    planner llm vn sys =
      { sys with
        llm_calls := sys.llm_calls + 1
        planner_calls := sys.planner_calls + 1
        gs := { sys.gs with
                stop_reason := d.stop_reason.getD ""
                messages := sys.gs.messages ++
                  [{ role := "assistant", content := d.draft_response.getD "" }]
                tool_queue := []
                exit_requested := true } } := by
  simp only [planner, if_neg hguard, hparse, hdone, if_true]

/-- Branch lemma: a valid not-done decision with only registered tools
replaces the queue and increments the step counter. -/
theorem planner_not_done_eq {β : Type} (llm : Nat → Option PlannerDecision)
    (vn : List String) (sys : Sys β) (d : PlannerDecision)
    (hguard : ¬ sys.gs.max_steps ≤ sys.gs.step_count)
    (hparse : parseDecision (llm sys.llm_calls) = .ok d)
    (hdone : d.done = false)
    (hfind : d.tool_requests.find? (fun r => !(vn.contains r.tool_name)) = none) :
    planner llm vn sys =
      { sys with
        llm_calls := sys.llm_calls + 1
        planner_calls := sys.planner_calls + 1
        gs := { sys.gs with
                tool_queue := d.tool_requests
                step_count := sys.gs.step_count + 1
                exit_requested := false } } := by
  simp only [planner, if_neg hguard, hparse, hdone, Bool.false_eq_true, if_false, hfind]


/-- The trim loop leaves a lane already within budget untouched. -/
theorem trimGoAux_of_le {α : Type} (size : List α → Nat) (budget fuel : Nat)
    (items : List α) (h : size items ≤ budget) :
    trimGoAux size budget fuel items = items := by
  cases fuel with
  | zero => rfl
  | succ f =>
      have hd : decide (budget < size items) = false :=
        decide_eq_false (Nat.not_lt.mpr h)
      simp [trimGoAux, hd]

/-- The trim loop only ever drops a suffix: its result is a take-front of
the input list. -/
theorem trimGoAux_take {α : Type} (size : List α → Nat) (budget : Nat) :
    ∀ (fuel : Nat) (items : List α),
      ∃ n, trimGoAux size budget fuel items = items.take n := by
  intro fuel
  induction fuel with
  | zero =>
      intro items
      exact ⟨items.length, by simp [trimGoAux]⟩
  | succ f ih =>
      intro items
      by_cases hc : (budget < size items && !items.isEmpty) = true
      · obtain ⟨n, hn⟩ := ih items.dropLast
        refine ⟨min n (items.length - 1), ?_⟩
        simp only [trimGoAux]
        rw [if_pos hc, hn, List.dropLast_eq_take, List.take_take]
      · refine ⟨items.length, ?_⟩
        simp only [trimGoAux]
        rw [if_neg hc, List.take_length]

/-- Given enough fuel the loop exits with the lane within budget or empty. -/
theorem trimGoAux_post {α : Type} (size : List α → Nat) (budget : Nat) :
    ∀ (fuel : Nat) (items : List α), items.length ≤ fuel →
      size (trimGoAux size budget fuel items) ≤ budget ∨
        trimGoAux size budget fuel items = [] := by
  intro fuel
  induction fuel with
  | zero =>
      intro items hl
      have hnil : items = [] := List.eq_nil_of_length_eq_zero (Nat.le_zero.mp hl)
      subst hnil
      exact Or.inr rfl
  | succ f ih =>
      intro items hl
      simp only [trimGoAux]
      by_cases hc : (budget < size items && !items.isEmpty) = true
      · rw [if_pos hc]
        apply ih
        have hne : items ≠ [] := by
          rcases Bool.and_eq_true_iff.mp hc with ⟨-, h2⟩
          intro hnil
          subst hnil
          simp at h2
        have hz : items.length ≠ 0 :=
          fun hz => hne (List.eq_nil_of_length_eq_zero hz)
        rw [List.length_dropLast]
        omega
      · rw [if_neg hc]
        by_cases hsz : size items ≤ budget
        · exact Or.inl hsz
        · right
          cases hL : items.isEmpty with
          | true => exact List.isEmpty_iff.mp hL
          | false =>
              exfalso
              apply hc
              have hd : decide (budget < size items) = true :=
                decide_eq_true (Nat.not_le.mp hsz)
              simp [hd, hL]

/-- `trimGo` specialization: within budget means untouched. -/
theorem trimGo_of_le {α : Type} (size : List α → Nat) (budget : Nat)
    (items : List α) (h : size items ≤ budget) :
    trimGo size budget items = items :=
  trimGoAux_of_le size budget items.length items h

/-- `trimGo` specialization: the result is a take-front of the input. -/
theorem trimGo_take {α : Type} (size : List α → Nat) (budget : Nat)
    (items : List α) : ∃ n, trimGo size budget items = items.take n :=
  trimGoAux_take size budget items.length items

/-- `trimGo` specialization: the result fits the budget or is empty. -/
theorem trimGo_post {α : Type} (size : List α → Nat) (budget : Nat)
    (items : List α) :
    size (trimGo size budget items) ≤ budget ∨ trimGo size budget items = [] :=
  trimGoAux_post size budget items.length items le_rfl

/-- `trimGo` is idempotent. -/
theorem trimGo_idem {α : Type} (size : List α → Nat) (budget : Nat)
    (items : List α) :
    trimGo size budget (trimGo size budget items) = trimGo size budget items := by
  rcases trimGo_post size budget items with h | h
  · exact trimGoAux_of_le size budget _ _ h
  · rw [h]
    rfl

/-- Record-update collapse for the world-snapshot lane. -/
theorem ws_update_collapse (x : WorldSnapshot) (a l : List ToolOutcome) :
    ({ { x with last_tool_outcomes := a } with last_tool_outcomes := l } : WorldSnapshot) =
      { x with last_tool_outcomes := l } := rfl

/-- Setting the world-snapshot list to itself is the identity. -/
theorem ws_update_self (x : WorldSnapshot) :
    ({ x with last_tool_outcomes := x.last_tool_outcomes } : WorldSnapshot) = x := rfl

/-- A world-snapshot lane already within budget is untouched by its block. -/
theorem compileWS_within (sz : Serializers) (b : Nat) (x : WorldSnapshot)
    (h : estTokens (sz.ws x) ≤ b) : compileWS sz b (some x) = some x := by
  simp only [compileWS]
  by_cases hne : x.last_tool_outcomes = []
  · rw [if_neg (not_not_intro hne)]
  · rw [if_pos hne]
    have hsz : estTokens (sz.ws { x with last_tool_outcomes := x.last_tool_outcomes }) ≤ b := by
      rw [ws_update_self]
      exact h
    rw [trimGo_of_le _ b x.last_tool_outcomes hsz, ws_update_self]

/-- The world-snapshot block only drops a suffix of the list, rewriting nothing. -/
theorem compileWS_take (sz : Serializers) (b : Nat) (x : WorldSnapshot) :
    ∃ n, compileWS sz b (some x) = some { x with last_tool_outcomes := x.last_tool_outcomes.take n } := by
  simp only [compileWS]
  by_cases hne : x.last_tool_outcomes = []
  · rw [if_neg (not_not_intro hne)]
    exact ⟨x.last_tool_outcomes.length, by rw [List.take_length, ws_update_self]⟩
  · rw [if_pos hne]
    obtain ⟨n, hn⟩ := trimGo_take
      (fun l => estTokens (sz.ws { x with last_tool_outcomes := l })) b x.last_tool_outcomes
    exact ⟨n, by rw [hn]⟩

/-- The world-snapshot block is idempotent. -/
theorem compileWS_idem (sz : Serializers) (b : Nat) (ox : Option WorldSnapshot) :
    compileWS sz b (compileWS sz b ox) = compileWS sz b ox := by
  cases ox with
  | none => rfl
  | some x =>
      by_cases hne : x.last_tool_outcomes = []
      · have h1 : compileWS sz b (some x) = some x := by
          simp only [compileWS]
          rw [if_neg (not_not_intro hne)]
        rw [h1, h1]
      · have h1 : compileWS sz b (some x) =
            some { x with
              last_tool_outcomes := trimGo
                (fun l => estTokens (sz.ws { x with last_tool_outcomes := l }))
                b x.last_tool_outcomes } := by
          simp only [compileWS]
          rw [if_pos hne]
        rw [h1]
        by_cases h2 : trimGo (fun l => estTokens (sz.ws { x with last_tool_outcomes := l })) b
            x.last_tool_outcomes = []
        · simp only [compileWS]
          rw [if_neg]
          intro hcc
          exact hcc (by simpa using h2)
        · simp only [compileWS]
          rw [if_pos (by simpa using h2)]
          rcases trimGo_post (fun l => estTokens (sz.ws { x with last_tool_outcomes := l })) b
              x.last_tool_outcomes with hle | hnil
          · rw [trimGo_of_le _ _ _ hle]
          · exact absurd hnil h2

/-- Record-update collapse for the anchor lane. -/
theorem pta_update_collapse (x : PeopleTimeAnchor) (a l : List PersonAnchor) :
    ({ { x with people := a } with people := l } : PeopleTimeAnchor) =
      { x with people := l } := rfl

/-- Setting the anchor list to itself is the identity. -/
theorem pta_update_self (x : PeopleTimeAnchor) :
    ({ x with people := x.people } : PeopleTimeAnchor) = x := rfl

/-- A anchor lane already within budget is untouched by its block. -/
theorem compilePTA_within (sz : Serializers) (b : Nat) (x : PeopleTimeAnchor)
    (h : estTokens (sz.pta x) ≤ b) : compilePTA sz b (some x) = some x := by
  simp only [compilePTA]
  by_cases hne : x.people = []
  · rw [if_neg (not_not_intro hne)]
  · rw [if_pos hne]
    have hsz : estTokens (sz.pta { x with people := x.people }) ≤ b := by
      rw [pta_update_self]
      exact h
    rw [trimGo_of_le _ b x.people hsz, pta_update_self]

/-- The anchor block only drops a suffix of the list, rewriting nothing. -/
theorem compilePTA_take (sz : Serializers) (b : Nat) (x : PeopleTimeAnchor) :
    ∃ n, compilePTA sz b (some x) = some { x with people := x.people.take n } := by
  simp only [compilePTA]
  by_cases hne : x.people = []
  · rw [if_neg (not_not_intro hne)]
    exact ⟨x.people.length, by rw [List.take_length, pta_update_self]⟩
  · rw [if_pos hne]
    obtain ⟨n, hn⟩ := trimGo_take
      (fun l => estTokens (sz.pta { x with people := l })) b x.people
    exact ⟨n, by rw [hn]⟩

/-- The anchor block is idempotent. -/
theorem compilePTA_idem (sz : Serializers) (b : Nat) (ox : Option PeopleTimeAnchor) :
    compilePTA sz b (compilePTA sz b ox) = compilePTA sz b ox := by
  cases ox with
  | none => rfl
  | some x =>
      by_cases hne : x.people = []
      · have h1 : compilePTA sz b (some x) = some x := by
          simp only [compilePTA]
          rw [if_neg (not_not_intro hne)]
        rw [h1, h1]
      · have h1 : compilePTA sz b (some x) =
            some { x with
              people := trimGo
                (fun l => estTokens (sz.pta { x with people := l }))
                b x.people } := by
          simp only [compilePTA]
          rw [if_pos hne]
        rw [h1]
        by_cases h2 : trimGo (fun l => estTokens (sz.pta { x with people := l })) b
            x.people = []
        · simp only [compilePTA]
          rw [if_neg]
          intro hcc
          exact hcc (by simpa using h2)
        · simp only [compilePTA]
          rw [if_pos (by simpa using h2)]
          rcases trimGo_post (fun l => estTokens (sz.pta { x with people := l })) b
              x.people with hle | hnil
          · rw [trimGo_of_le _ _ _ hle]
          · exact absurd hnil h2

/-- Record-update collapse for the memory-summaries lane. -/
theorem ms_update_collapse (x : MemorySummaries) (a l : List MemoryEntry) :
    ({ { x with entries := a } with entries := l } : MemorySummaries) =
      { x with entries := l } := rfl

/-- Setting the memory-summaries list to itself is the identity. -/
theorem ms_update_self (x : MemorySummaries) :
    ({ x with entries := x.entries } : MemorySummaries) = x := rfl

/-- A memory-summaries lane already within budget is untouched by its block. -/
theorem compileMS_within (sz : Serializers) (b : Nat) (x : MemorySummaries)
    (h : estTokens (sz.ms x) ≤ b) : compileMS sz b (some x) = some x := by
  simp only [compileMS]
  by_cases hne : x.entries = []
  · rw [if_neg (not_not_intro hne)]
  · rw [if_pos hne]
    have hsz : estTokens (sz.ms { x with entries := x.entries }) ≤ b := by
      rw [ms_update_self]
      exact h
    rw [trimGo_of_le _ b x.entries hsz, ms_update_self]

/-- The memory-summaries block only drops a suffix of the list, rewriting nothing. -/
theorem compileMS_take (sz : Serializers) (b : Nat) (x : MemorySummaries) :
    ∃ n, compileMS sz b (some x) = some { x with entries := x.entries.take n } := by
  simp only [compileMS]
  by_cases hne : x.entries = []
  · rw [if_neg (not_not_intro hne)]
    exact ⟨x.entries.length, by rw [List.take_length, ms_update_self]⟩
  · rw [if_pos hne]
    obtain ⟨n, hn⟩ := trimGo_take
      (fun l => estTokens (sz.ms { x with entries := l })) b x.entries
    exact ⟨n, by rw [hn]⟩

/-- The memory-summaries block is idempotent. -/
theorem compileMS_idem (sz : Serializers) (b : Nat) (ox : Option MemorySummaries) :
    compileMS sz b (compileMS sz b ox) = compileMS sz b ox := by
  cases ox with
  | none => rfl
  | some x =>
      by_cases hne : x.entries = []
      · have h1 : compileMS sz b (some x) = some x := by
          simp only [compileMS]
          rw [if_neg (not_not_intro hne)]
        rw [h1, h1]
      · have h1 : compileMS sz b (some x) =
            some { x with
              entries := trimGo
                (fun l => estTokens (sz.ms { x with entries := l }))
                b x.entries } := by
          simp only [compileMS]
          rw [if_pos hne]
        rw [h1]
        by_cases h2 : trimGo (fun l => estTokens (sz.ms { x with entries := l })) b
            x.entries = []
        · simp only [compileMS]
          rw [if_neg]
          intro hcc
          exact hcc (by simpa using h2)
        · simp only [compileMS]
          rw [if_pos (by simpa using h2)]
          rcases trimGo_post (fun l => estTokens (sz.ms { x with entries := l })) b
              x.entries with hle | hnil
          · rw [trimGo_of_le _ _ _ hle]
          · exact absurd hnil h2

/-- Record-update collapse for the evidence-pack lane. -/
theorem ep_update_collapse (x : EvidencePack) (a l : List EvidenceItem) :
    ({ { x with items := a } with items := l } : EvidencePack) =
      { x with items := l } := rfl

/-- Setting the evidence-pack list to itself is the identity. -/
theorem ep_update_self (x : EvidencePack) :
    ({ x with items := x.items } : EvidencePack) = x := rfl

/-- A evidence-pack lane already within budget is untouched by its block. -/
theorem compileEP_within (sz : Serializers) (b : Nat) (x : EvidencePack)
    (h : estTokens (sz.ep x) ≤ b) : compileEP sz b (some x) = some x := by
  simp only [compileEP]
  by_cases hne : x.items = []
  · rw [if_neg (not_not_intro hne)]
  · rw [if_pos hne]
    have hsz : estTokens (sz.ep { x with items := x.items }) ≤ b := by
      rw [ep_update_self]
      exact h
    rw [trimGo_of_le _ b x.items hsz, ep_update_self]

/-- The evidence-pack block only drops a suffix of the list, rewriting nothing. -/
theorem compileEP_take (sz : Serializers) (b : Nat) (x : EvidencePack) :
    ∃ n, compileEP sz b (some x) = some { x with items := x.items.take n } := by
  simp only [compileEP]
  by_cases hne : x.items = []
  · rw [if_neg (not_not_intro hne)]
    exact ⟨x.items.length, by rw [List.take_length, ep_update_self]⟩
  · rw [if_pos hne]
    obtain ⟨n, hn⟩ := trimGo_take
      (fun l => estTokens (sz.ep { x with items := l })) b x.items
    exact ⟨n, by rw [hn]⟩

/-- The evidence-pack block is idempotent. -/
theorem compileEP_idem (sz : Serializers) (b : Nat) (ox : Option EvidencePack) :
    compileEP sz b (compileEP sz b ox) = compileEP sz b ox := by
  cases ox with
  | none => rfl
  | some x =>
      by_cases hne : x.items = []
      · have h1 : compileEP sz b (some x) = some x := by
          simp only [compileEP]
          rw [if_neg (not_not_intro hne)]
        rw [h1, h1]
      · have h1 : compileEP sz b (some x) =
            some { x with
              items := trimGo
                (fun l => estTokens (sz.ep { x with items := l }))
                b x.items } := by
          simp only [compileEP]
          rw [if_pos hne]
        rw [h1]
        by_cases h2 : trimGo (fun l => estTokens (sz.ep { x with items := l })) b
            x.items = []
        · simp only [compileEP]
          rw [if_neg]
          intro hcc
          exact hcc (by simpa using h2)
        · simp only [compileEP]
          rw [if_pos (by simpa using h2)]
          rcases trimGo_post (fun l => estTokens (sz.ep { x with items := l })) b
              x.items with hle | hnil
          · rw [trimGo_of_le _ _ _ hle]
          · exact absurd hnil h2

/-- Branch lemma: a registry-resolution failure (`KeyError`) records an
`Unknown tool` error payload, rolls back, logs, and appends the message
pair. -/
theorem tool_executor_resolution_failure_eq {β : Type}
    (registry : String → Option (ToolHandler β)) (timeNs durationMs : Nat)
    (sys : Sys β) (req : ToolRequest) (rest : List ToolRequest)
    (hq : sys.gs.tool_queue = req :: rest)
    (hnone : registry req.tool_name = none) :
    tool_executor registry timeNs durationMs sys =
      { sys with
        business := sys.business
        tool_logs := sys.tool_logs ++
          [{ run_id := sys.gs.run_id
             session_id := sys.gs.session_id
             thread_id := execThreadId sys.gs
             tool_name := req.tool_name
             arguments_json := dumpsSorted req.arguments
             result_json :=
               (ResultPayload.errorPayload ("Unknown tool: " ++ req.tool_name)).dumps.take 4000
             success := false
             duration_ms := durationMs }]
        tool_iterations := sys.tool_iterations + 1
        gs := { sys.gs with
                tool_queue := rest
                last_tool_result := some
                  { tool_name := req.tool_name
                    arguments := req.arguments
                    result := .errorPayload ("Unknown tool: " ++ req.tool_name)
                    success := false
                    duration_ms := durationMs }
                messages := sys.gs.messages ++
                  [{ role := "assistant"
                     content := ""
                     tool_calls := [{ id := execCallId req sys.gs timeNs
                                      type := "function"
                                      name := req.tool_name
                                      argumentsJson := dumpsSorted req.arguments }] },
                   { role := "tool"
                     content := (ResultPayload.errorPayload
                       ("Unknown tool: " ++ req.tool_name)).dumps
                     tool_call_id := some (execCallId req sys.gs timeNs) }]
                errors := sys.gs.errors ++ ["Tool " ++ req.tool_name ++ " failed"]
                thread_id := execThreadId sys.gs } } := by
  simp [tool_executor, hq, hnone]

/-- Branch lemma: a handler exception records the raised message as the
error payload, rolls the session back, logs, and appends the message pair. -/
theorem tool_executor_handler_error_eq {β : Type}
    (registry : String → Option (ToolHandler β)) (timeNs durationMs : Nat)
    (sys : Sys β) (req : ToolRequest) (rest : List ToolRequest)
    (h : ToolHandler β) (e : String)
    (hq : sys.gs.tool_queue = req :: rest)
    (hsome : registry req.tool_name = some h)
    (herr : h sys.business sys.gs.run_id req.arguments = .error e) :
    tool_executor registry timeNs durationMs sys =
      { sys with
        business := sys.business
        tool_logs := sys.tool_logs ++
          [{ run_id := sys.gs.run_id
             session_id := sys.gs.session_id
             thread_id := execThreadId sys.gs
             tool_name := req.tool_name
             arguments_json := dumpsSorted req.arguments
             result_json := (ResultPayload.errorPayload e).dumps.take 4000
             success := false
             duration_ms := durationMs }]
        tool_iterations := sys.tool_iterations + 1
        gs := { sys.gs with
                tool_queue := rest
                last_tool_result := some
                  { tool_name := req.tool_name
                    arguments := req.arguments
                    result := .errorPayload e
                    success := false
                    duration_ms := durationMs }
                messages := sys.gs.messages ++
                  [{ role := "assistant"
                     content := ""
                     tool_calls := [{ id := execCallId req sys.gs timeNs
                                      type := "function"
                                      name := req.tool_name
                                      argumentsJson := dumpsSorted req.arguments }] },
                   { role := "tool"
                     content := (ResultPayload.errorPayload e).dumps
                     tool_call_id := some (execCallId req sys.gs timeNs) }]
                errors := sys.gs.errors ++ ["Tool " ++ req.tool_name ++ " failed"]
                thread_id := execThreadId sys.gs } } := by
  simp [tool_executor, hq, hsome, herr]

-- =========================================================================
-- Claim theorems
-- =========================================================================

/-- C8: Constructing a `PlannerDecision` succeeds if and only if the
mutual-exclusion invariant holds: `done = true` requires a non-empty stop
reason, a non-empty draft response and an empty tool-request list, while
`done = false` requires at least one tool request; any other combination
makes the validator raise. -/
theorem planner_decision_construction_iff (d : PlannerDecision) :
    exceptOk d.validate_consistency = true ↔
      ((d.done = true ∧ optTruthy d.stop_reason = true ∧
          optTruthy d.draft_response = true ∧ d.tool_requests = []) ∨
       (d.done = false ∧ d.tool_requests ≠ [])) := by
  constructor
  · intro h
    cases hv : d.validate_consistency with
    | ok e => exact ((validate_ok_iff d e).mp hv).2
    | error e => rw [hv] at h; simp [exceptOk] at h
  · intro h
    rw [(validate_ok_iff d d).mpr ⟨rfl, h⟩]
    rfl

/-- C10: Invoking the tool executor on a state whose tool queue is empty
returns the empty update: the graph state, the business data, the audit
log and every collaborator counter are unchanged. -/
theorem tool_executor_empty_queue_frame {β : Type}
    (registry : String → Option (ToolHandler β)) (timeNs durationMs : Nat)
    (sys : Sys β) (h : sys.gs.tool_queue = []) :
    tool_executor registry timeNs durationMs sys = sys := by
  simp only [tool_executor, h]

/-- C10 witness: a concrete system with an empty queue passes through the
executor untouched. -/
theorem tool_executor_empty_queue_frame_witness :
    tool_executor (β := Unit) (fun _ => none) 0 0 emptyQueueSys0 = emptyQueueSys0 :=
  tool_executor_empty_queue_frame (fun _ => none) 0 0 emptyQueueSys0 rfl

/-- C3: After the planner node runs — on any input state, including one
restored from a checkpoint — exactly one of the two conditions holds:
the stop reason is unset and the tool queue is non-empty, or the stop
reason is set. -/
theorem planner_post_invariant {β : Type} (llm : Nat → Option PlannerDecision)
    (vn : List String) (sys : Sys β) :
    Xor' ((planner llm vn sys).gs.stop_reason = "" ∧
          (planner llm vn sys).gs.tool_queue ≠ [])
         ((planner llm vn sys).gs.stop_reason ≠ "") := by
  have key : (planner llm vn sys).gs.stop_reason = "" →
      (planner llm vn sys).gs.tool_queue ≠ [] := by
    intro h0
    by_cases hguard : sys.gs.max_steps ≤ sys.gs.step_count
    · rw [planner_guard_eq llm vn sys hguard] at h0
      simp at h0
    · cases hparse : parseDecision (llm sys.llm_calls) with
      | error e =>
          rw [planner_parse_error_eq llm vn sys e hguard hparse] at h0
          simp at h0
      | ok d =>
          obtain ⟨hraw, hinv⟩ := parseDecision_ok _ _ hparse
          rcases hinv with ⟨hdone, hsr, _, _⟩ | ⟨hdone, hreq⟩
          · rw [planner_done_eq llm vn sys d hguard hparse hdone] at h0
            exact absurd h0 (optTruthy_getD _ hsr)
          · cases hfind : d.tool_requests.find?
                (fun r => !(vn.contains r.tool_name)) with
            | some tr =>
                rw [planner_unknown_tool_eq llm vn sys d tr hguard hparse hdone hfind] at h0
                simp at h0
            | none =>
                rw [planner_not_done_eq llm vn sys d hguard hparse hdone hfind]
                simpa using hreq
  by_cases h : (planner llm vn sys).gs.stop_reason = ""
  · exact Or.inl ⟨⟨h, key h⟩, fun hc => hc h⟩
  · exact Or.inr ⟨h, fun hc => h hc.1⟩

/-- C5: When the decision is not done and names an unregistered tool, the
planner returns stop reason `error`, appends an error message of the form
`Unknown tool: name` for an unregistered name, empties the tool queue,
requests exit, and writes nothing to the audit log. -/
theorem planner_unknown_tool_fatal {β : Type} (llm : Nat → Option PlannerDecision)
    (vn : List String) (sys : Sys β) (d : PlannerDecision)
    (hguard : sys.gs.step_count < sys.gs.max_steps)
    (hparse : parseDecision (llm sys.llm_calls) = .ok d)
    (hdone : d.done = false)
    (hbad : ∃ tr ∈ d.tool_requests, vn.contains tr.tool_name = false) :
    (planner llm vn sys).gs.stop_reason = "error" ∧
    (∃ nm, vn.contains nm = false ∧
      (planner llm vn sys).gs.errors = sys.gs.errors ++ ["Unknown tool: " ++ nm]) ∧
    (planner llm vn sys).gs.tool_queue = [] ∧
    (planner llm vn sys).gs.exit_requested = true ∧
    (planner llm vn sys).tool_logs = sys.tool_logs := by
  have hng : ¬ sys.gs.max_steps ≤ sys.gs.step_count := by omega
  have hfind : ∃ tr, d.tool_requests.find?
      (fun r => !(vn.contains r.tool_name)) = some tr := by
    obtain ⟨tr, htr, hc⟩ := hbad
    cases hf : d.tool_requests.find? (fun r => !(vn.contains r.tool_name)) with
    | some tr0 => exact ⟨tr0, rfl⟩
    | none =>
        exfalso
        have h2 := List.find?_eq_none.mp hf tr htr
        cases hcc : vn.contains tr.tool_name with
        | false => exact h2 (by rw [hcc]; rfl)
        | true => rw [hcc] at hc; exact Bool.noConfusion hc
  obtain ⟨tr, hf⟩ := hfind
  have hmem := List.find?_some hf
  have hcontain : vn.contains tr.tool_name = false := by
    simpa using hmem
  rw [planner_unknown_tool_eq llm vn sys d tr hng hparse hdone hf]
  exact ⟨rfl, ⟨tr.tool_name, hcontain, rfl⟩, rfl, rfl, rfl⟩

/-- C5 witness: the concrete decision naming `nonexistent_tool` against a
registry holding only `people_list` hits the fatal unknown-tool path. -/
theorem planner_unknown_tool_fatal_witness :
    (planner (fun _ => some decisionUnknown) ["people_list"] unknownSys0).gs.stop_reason = "error" ∧
    (∃ nm, ["people_list"].contains nm = false ∧
      (planner (fun _ => some decisionUnknown) ["people_list"] unknownSys0).gs.errors =
        unknownSys0.gs.errors ++ ["Unknown tool: " ++ nm]) ∧
    (planner (fun _ => some decisionUnknown) ["people_list"] unknownSys0).gs.tool_queue = [] ∧
    (planner (fun _ => some decisionUnknown) ["people_list"] unknownSys0).gs.exit_requested = true ∧
    (planner (fun _ => some decisionUnknown) ["people_list"] unknownSys0).tool_logs =
      unknownSys0.tool_logs :=
  planner_unknown_tool_fatal (fun _ => some decisionUnknown) ["people_list"]
    unknownSys0 decisionUnknown (by decide) rfl rfl
    ⟨{ tool_name := "nonexistent_tool" }, by decide, by decide⟩

/-- C6: On a registry-resolution failure or a handler exception for the
front request, the tool executor rolls back the session (business data
unchanged), records the error as the result payload with success false,
appends an error note, still writes one audit-log row and the paired
assistant-tool-call / tool-response messages, and does not abort the turn:
the edge out of the executor is unconditionally the gate evaluator. -/
theorem tool_executor_failure_recovery {β : Type}
    (registry : String → Option (ToolHandler β)) (timeNs durationMs : Nat)
    (sys : Sys β) (req : ToolRequest) (rest : List ToolRequest)
    (hq : sys.gs.tool_queue = req :: rest)
    (hfail : registry req.tool_name = none ∨
      ∃ h, registry req.tool_name = some h ∧
        ∃ e, h sys.business sys.gs.run_id req.arguments = .error e) :
    (tool_executor registry timeNs durationMs sys).business = sys.business ∧
    (∃ msg,
      (tool_executor registry timeNs durationMs sys).gs.last_tool_result = some
        { tool_name := req.tool_name
          arguments := req.arguments
          result := .errorPayload msg
          success := false
          duration_ms := durationMs } ∧
      (tool_executor registry timeNs durationMs sys).tool_logs = sys.tool_logs ++
        [{ run_id := sys.gs.run_id
           session_id := sys.gs.session_id
           thread_id := execThreadId sys.gs
           tool_name := req.tool_name
           arguments_json := dumpsSorted req.arguments
           result_json := (ResultPayload.errorPayload msg).dumps.take 4000
           success := false
           duration_ms := durationMs }] ∧
      (tool_executor registry timeNs durationMs sys).gs.messages = sys.gs.messages ++
        [{ role := "assistant"
           content := ""
           tool_calls := [{ id := execCallId req sys.gs timeNs
                            type := "function"
                            name := req.tool_name
                            argumentsJson := dumpsSorted req.arguments }] },
         { role := "tool"
           content := (ResultPayload.errorPayload msg).dumps
           tool_call_id := some (execCallId req sys.gs timeNs) }]) ∧
    (tool_executor registry timeNs durationMs sys).gs.errors =
      sys.gs.errors ++ ["Tool " ++ req.tool_name ++ " failed"] ∧
    (tool_executor registry timeNs durationMs sys).gs.tool_queue = rest ∧
    (∀ env : GraphEnv β, ∀ anySys : Sys β,
      (stepGraph env .toolExecutor anySys).1 = .gateEvaluator) := by
  rcases hfail with hnone | ⟨h, hsome, e, herr⟩
  · rw [tool_executor_resolution_failure_eq registry timeNs durationMs sys req rest hq hnone]
    exact ⟨rfl, ⟨"Unknown tool: " ++ req.tool_name, rfl, rfl, rfl⟩, rfl, rfl,
      fun env anySys => rfl⟩
  · rw [tool_executor_handler_error_eq registry timeNs durationMs sys req rest h e hq hsome herr]
    exact ⟨rfl, ⟨e, rfl, rfl, rfl⟩, rfl, rfl, fun env anySys => rfl⟩

/-- C6 witness: a queued request for the unregistered `missing_tool`
against an empty registry is recorded as a failed outcome while the
session and the turn continue. -/
theorem tool_executor_failure_recovery_witness :
    (tool_executor (β := Unit) (fun _ => none) 0 0 failExecSys0).business =
      failExecSys0.business ∧
    (tool_executor (β := Unit) (fun _ => none) 0 0 failExecSys0).gs.errors =
      failExecSys0.gs.errors ++ ["Tool missing_tool failed"] ∧
    (tool_executor (β := Unit) (fun _ => none) 0 0 failExecSys0).gs.tool_queue = [] :=
  have h := tool_executor_failure_recovery (β := Unit) (fun _ => none) 0 0
    failExecSys0 { tool_name := "missing_tool" } [] rfl (Or.inl rfl)
  ⟨h.1, h.2.2.1, h.2.2.2.1⟩

/-- C9: For a blank or whitespace-only instruction the evidence-retrieval
node makes no backend call and returns an evidence pack with an empty item
list and the retrieval-method tag set; for any other instruction it
queries the backend (exactly one FTS call). -/
theorem retrieve_evidence_blank_shortcircuit (db : RetrievalDB) (s : GraphState) :
    ((retrieve_evidence_pack db s).2 =
      if isBlank s.user_message then 0 else 1) ∧
    (isBlank s.user_message = true →
      (retrieve_evidence_pack db s).1.evidence_pack = some
        { items := [], query_used := none, retrieval_method := some "fts" }) := by
  by_cases hbl : isBlank s.user_message = true
  · constructor
    · simp [retrieve_evidence_pack, hbl]
    · intro _
      simp [retrieve_evidence_pack, hbl]
  · have hbl2 : isBlank s.user_message = false := by
      cases hc : isBlank s.user_message with
      | false => rfl
      | true => exact absurd hc hbl
    constructor
    · simp [retrieve_evidence_pack, hbl2]
    · intro hcontra
      rw [hbl2] at hcontra
      exact Bool.noConfusion hcontra

/-- C9 witness: the empty-string instruction of Scenario E yields zero
backend calls and an empty evidence pack with the method tag set. -/
theorem retrieve_evidence_blank_shortcircuit_witness :
    (retrieve_evidence_pack retrievalFixture blankMsgState).2 = 0 ∧
    (retrieve_evidence_pack retrievalFixture blankMsgState).1.evidence_pack = some
      { items := [], query_used := none, retrieval_method := some "fts" } :=
  have h := retrieve_evidence_blank_shortcircuit retrievalFixture blankMsgState
  ⟨by rw [h.1]; rfl, h.2 rfl⟩

/-- C7: The context compiler removes no element from a lane whose
serialized size is already within that lane budget, and trimming, when it
occurs, only removes whole elements from the tail: every output lane is
the input lane with its list replaced by a take-front of the original
list, all surviving elements unchanged. -/
theorem context_compiler_budget_discipline (sz : Serializers) (now : Nat)
    (p : ContextPacket) :
    ((∀ ws, p.world_snapshot = some ws →
        estTokens (sz.ws ws) ≤ p.token_budget.world_snapshot →
        (context_compiler sz now p).world_snapshot = some ws) ∧
     (∀ ws, p.world_snapshot = some ws →
        ∃ n, (context_compiler sz now p).world_snapshot =
          some { ws with last_tool_outcomes := ws.last_tool_outcomes.take n })) ∧
    ((∀ pta, p.people_time_anchor = some pta →
        estTokens (sz.pta pta) ≤ p.token_budget.people_time_anchor →
        (context_compiler sz now p).people_time_anchor = some pta) ∧
     (∀ pta, p.people_time_anchor = some pta →
        ∃ n, (context_compiler sz now p).people_time_anchor =
          some { pta with people := pta.people.take n })) ∧
    ((∀ ms, p.memory_summaries = some ms →
        estTokens (sz.ms ms) ≤ p.token_budget.memory_summaries →
        (context_compiler sz now p).memory_summaries = some ms) ∧
     (∀ ms, p.memory_summaries = some ms →
        ∃ n, (context_compiler sz now p).memory_summaries =
          some { ms with entries := ms.entries.take n })) ∧
    ((∀ ep, p.evidence_pack = some ep →
        estTokens (sz.ep ep) ≤ p.token_budget.evidence_pack →
        (context_compiler sz now p).evidence_pack = some ep) ∧
     (∀ ep, p.evidence_pack = some ep →
        ∃ n, (context_compiler sz now p).evidence_pack =
          some { ep with items := ep.items.take n })) := by
  have hws : (context_compiler sz now p).world_snapshot =
      compileWS sz p.token_budget.world_snapshot p.world_snapshot := rfl
  have hpta : (context_compiler sz now p).people_time_anchor =
      compilePTA sz p.token_budget.people_time_anchor p.people_time_anchor := rfl
  have hms : (context_compiler sz now p).memory_summaries =
      compileMS sz p.token_budget.memory_summaries p.memory_summaries := rfl
  have hep : (context_compiler sz now p).evidence_pack =
      compileEP sz p.token_budget.evidence_pack p.evidence_pack := rfl
  refine ⟨⟨?_, ?_⟩, ⟨?_, ?_⟩, ⟨?_, ?_⟩, ⟨?_, ?_⟩⟩
  · intro ws h0 h
    rw [hws, h0]
    exact compileWS_within sz _ ws h
  · intro ws h0
    rw [hws, h0]
    exact compileWS_take sz _ ws
  · intro pta h0 h
    rw [hpta, h0]
    exact compilePTA_within sz _ pta h
  · intro pta h0
    rw [hpta, h0]
    exact compilePTA_take sz _ pta
  · intro ms h0 h
    rw [hms, h0]
    exact compileMS_within sz _ ms h
  · intro ms h0
    rw [hms, h0]
    exact compileMS_take sz _ ms
  · intro ep h0 h
    rw [hep, h0]
    exact compileEP_within sz _ ep h
  · intro ep h0
    rw [hep, h0]
    exact compileEP_take sz _ ep

/-- C7 witness: a concrete packet whose world-snapshot lane serializes
within budget passes through the compiler untouched, and its outcome list
is a take-front of the original. -/
theorem context_compiler_budget_discipline_witness :
    (context_compiler zeroSerializers 0 packetFixture).world_snapshot =
      some wsFixture ∧
    ∃ n, (context_compiler zeroSerializers 0 packetFixture).world_snapshot =
      some { wsFixture with
             last_tool_outcomes := wsFixture.last_tool_outcomes.take n } :=
  have h := context_compiler_budget_discipline zeroSerializers 0 packetFixture
  ⟨h.1.1 wsFixture rfl (by decide), h.1.2 wsFixture rfl⟩

/-- C4 counterexample: re-running the compiler is not a literal no-op —
the compiled-at timestamp is overwritten with the new compile instant, so
a packet compiled at instant 0 differs from its recompilation at
instant 1. -/
theorem context_compiler_recompile_changes_timestamp :
    context_compiler zeroSerializers 1
        (context_compiler zeroSerializers 0 packetFixture) ≠
      context_compiler zeroSerializers 0 packetFixture := by
  intro h
  have h2 := congrArg ContextPacket.compiled_at h
  simp [context_compiler] at h2

/-- C4 (amended): re-running the compiler on an already-compiled packet
changes nothing except overwriting the compiled-at timestamp with the new
compile instant; every lane (hence every lane serialized size) is
identical. -/
theorem context_compiler_recompile_eq (sz : Serializers) (t1 t2 : Nat)
    (p : ContextPacket) :
    context_compiler sz t2 (context_compiler sz t1 p) =
      { context_compiler sz t1 p with compiled_at := some t2 } := by
  simp only [context_compiler]
  rw [compileWS_idem, compilePTA_idem, compileMS_idem, compileEP_idem]

/-- C2: The finalizer produces exactly one of the three terminal statuses,
mapped exactly as the specification describes: `ERROR` for stop reason
`error`/`max_steps` with the last recorded error (else the generic stopped
message); `NEEDS_REVIEW` for `ask_user`, the blocked flag, or `blocked`,
with the most recent assistant content (else the generic review prompt)
and the required-actions list of the needs-review payload; `OK` otherwise
with the most recent assistant content (else the summarizer text). -/
theorem finalizer_terminal_mapping (s : GraphState) :
    (finalizerState s).final_payload =
      some { status := specFinalStatus s, message := specFinalMessage s,
             next_actions := specFinalNextActions s } ∧
    (specFinalStatus s = "ERROR" ∨ specFinalStatus s = "NEEDS_REVIEW" ∨
      specFinalStatus s = "OK") := by
  constructor
  · unfold finalizerState specFinalStatus specFinalMessage specFinalNextActions
    by_cases h1 : s.stop_reason = "error" ∨ s.stop_reason = "max_steps"
    · simp only [if_pos h1]
      cases herr : s.errors with
      | nil => simp [herr]
      | cons a l =>
          simp only [List.getLast?_eq_getLast (a :: l) (by simp), herr]
          simp [List.getLast?_eq_getLast (a :: l) (by simp)]
    · by_cases h2 : s.stop_reason = "ask_user" ∨ s.is_blocked = true ∨
          s.stop_reason = "blocked"
      · simp [h1, h2]
      · simp [h1, h2]
  · unfold specFinalStatus
    split_ifs <;> simp

-- =========================================================================
-- Bounded-termination run (C1): step lemmas, frame lemmas, loop induction
-- =========================================================================

/-- Unfolding one transition of the graph runner at a non-terminal node. -/
theorem runGraph_succ {β : Type} (env : GraphEnv β) (fuel : Nat) (n : Node)
    (sys : Sys β) (h : ¬ n = Node.terminal) :
    runGraph env (fuel + 1) n sys =
      runGraph env fuel (stepGraph env n sys).1 (stepGraph env n sys).2 := by
  simp [runGraph, h]

/-- The context-build phase hands control to the planner, updating only
the context packet. -/
theorem stepGraph_context {β : Type} (env : GraphEnv β) (sys : Sys β) :
    stepGraph env .contextBuild sys =
      (.plannerNode,
        { sys with gs := { sys.gs with
            context_packet := some (env.buildPacket sys) } }) := rfl

theorem stepGraph_planner {β : Type} (env : GraphEnv β) (sys : Sys β) :
    stepGraph env .plannerNode sys =
      (route_after_planner (planner env.llm env.validNames sys).gs,
        planner env.llm env.validNames sys) := rfl

theorem stepGraph_tool {β : Type} (env : GraphEnv β) (sys : Sys β) :
    stepGraph env .toolExecutor sys =
      (.gateEvaluator,
        tool_executor env.registry env.timeNs env.durationMs sys) := rfl

theorem stepGraph_gate {β : Type} (env : GraphEnv β) (sys : Sys β) :
    stepGraph env .gateEvaluator sys =
      (route_after_gate (gate_evaluator env.gate sys).gs,
        gate_evaluator env.gate sys) := rfl

theorem stepGraph_summ {β : Type} (env : GraphEnv β) (sys : Sys β) :
    stepGraph env .summarizerNode sys = (.finalizerNode, summarizer sys) := rfl

theorem stepGraph_final {β : Type} (env : GraphEnv β) (sys : Sys β) :
    stepGraph env .finalizerNode sys = (.terminal, finalizer sys) := rfl

/-- The executor with a non-empty queue leaves every control field except
the queue untouched and bumps only the tool-iteration counter. -/
theorem tool_executor_frame {β : Type}
    (registry : String → Option (ToolHandler β)) (timeNs durationMs : Nat)
    (sys : Sys β) (req : ToolRequest) (rest : List ToolRequest)
    (hq : sys.gs.tool_queue = req :: rest) :
    (tool_executor registry timeNs durationMs sys).gs.stop_reason =
        sys.gs.stop_reason ∧
    (tool_executor registry timeNs durationMs sys).gs.step_count =
        sys.gs.step_count ∧
    (tool_executor registry timeNs durationMs sys).gs.max_steps =
        sys.gs.max_steps ∧
    (tool_executor registry timeNs durationMs sys).gs.exit_requested =
        sys.gs.exit_requested ∧
    (tool_executor registry timeNs durationMs sys).llm_calls =
        sys.llm_calls ∧
    (tool_executor registry timeNs durationMs sys).planner_calls =
        sys.planner_calls ∧
    (tool_executor registry timeNs durationMs sys).tool_iterations =
        sys.tool_iterations + 1 := by
  simp [tool_executor, hq]

/-- C1 run, final segment: from the loop head with the step counter at the
ceiling, five transitions reach the terminal node through the max-steps
guard without a further LLM call. -/
theorem C1_finish {β : Type} (env : GraphEnv β)
    (hgate : ∀ b, (env.gate b).isBlocked = false)
    (N : Nat) (sys : Sys β) (hinv : C1Inv N N sys) :
    ∃ sysF : Sys β,
      runGraph env 5 .contextBuild sys = (.terminal, sysF) ∧
      sysF.gs.stop_reason = "max_steps" ∧
      sysF.gs.tool_queue = [] ∧
      sysF.gs.exit_requested = true ∧
      sysF.gs.finalized = true ∧
      sysF.llm_calls = N ∧
      sysF.planner_calls = N + 1 ∧
      sysF.tool_iterations = N := by
  obtain ⟨hsc, hms, hsr, hlc, hpc, hti⟩ := hinv
  have hguard : (stepGraph env .contextBuild sys).2.gs.max_steps ≤
      (stepGraph env .contextBuild sys).2.gs.step_count := by
    simp [stepGraph, hms, hsc]
  have hplan := planner_guard_eq env.llm env.validNames
    (stepGraph env .contextBuild sys).2 hguard
  have e1 : runGraph env 5 .contextBuild sys =
      runGraph env 4 .plannerNode (stepGraph env .contextBuild sys).2 := by
    rw [show (5 : Nat) = 4 + 1 from rfl,
      runGraph_succ env 4 .contextBuild sys (by decide)]
    rfl
  have hr1 : route_after_planner
      (planner env.llm env.validNames (stepGraph env .contextBuild sys).2).gs =
        .gateEvaluator := by
    rw [hplan]
    simp [route_after_planner]
  have e2 : runGraph env 4 .plannerNode (stepGraph env .contextBuild sys).2 =
      runGraph env 3 .gateEvaluator
        (planner env.llm env.validNames (stepGraph env .contextBuild sys).2) := by
    rw [show (4 : Nat) = 3 + 1 from rfl,
      runGraph_succ env 3 .plannerNode _ (by decide), stepGraph_planner, hr1]
  have hr2 : route_after_gate
      (gate_evaluator env.gate
        (planner env.llm env.validNames (stepGraph env .contextBuild sys).2)).gs =
        .summarizerNode := by
    rw [hplan]
    simp [route_after_gate, gate_evaluator]
  have e3 : runGraph env 3 .gateEvaluator
      (planner env.llm env.validNames (stepGraph env .contextBuild sys).2) =
      runGraph env 2 .summarizerNode
        (gate_evaluator env.gate
          (planner env.llm env.validNames (stepGraph env .contextBuild sys).2)) := by
    rw [show (3 : Nat) = 2 + 1 from rfl,
      runGraph_succ env 2 .gateEvaluator _ (by decide), stepGraph_gate, hr2]
  have e4 : runGraph env 2 .summarizerNode
      (gate_evaluator env.gate
        (planner env.llm env.validNames (stepGraph env .contextBuild sys).2)) =
      runGraph env 1 .finalizerNode
        (summarizer (gate_evaluator env.gate
          (planner env.llm env.validNames (stepGraph env .contextBuild sys).2))) := by
    rw [show (2 : Nat) = 1 + 1 from rfl,
      runGraph_succ env 1 .summarizerNode _ (by decide), stepGraph_summ]
  have e5 : runGraph env 1 .finalizerNode
      (summarizer (gate_evaluator env.gate
        (planner env.llm env.validNames (stepGraph env .contextBuild sys).2))) =
      runGraph env 0 .terminal
        (finalizer (summarizer (gate_evaluator env.gate
          (planner env.llm env.validNames (stepGraph env .contextBuild sys).2)))) := by
    rw [show (1 : Nat) = 0 + 1 from rfl,
      runGraph_succ env 0 .finalizerNode _ (by decide), stepGraph_final]
  refine ⟨finalizer (summarizer (gate_evaluator env.gate
      (planner env.llm env.validNames (stepGraph env .contextBuild sys).2))),
    ?_, ?_, ?_, ?_, ?_, ?_, ?_, ?_⟩
  · rw [e1, e2, e3, e4, e5]
    rfl
  · rw [hplan]
    simp [finalizer, finalizerState, summarizer, gate_evaluator]
  · rw [hplan]
    simp [finalizer, finalizerState, summarizer, gate_evaluator]
  · rw [hplan]
    simp [finalizer, finalizerState, summarizer, gate_evaluator]
  · rw [hplan]
    simp [finalizer, finalizerState, summarizer, gate_evaluator]
  · rw [hplan]
    simp only [finalizer, finalizerState, summarizer, gate_evaluator]
    exact hlc
  · rw [hplan]
    simp only [finalizer, finalizerState, summarizer, gate_evaluator]
    simp [stepGraph, hpc]
  · rw [hplan]
    simp only [finalizer, finalizerState, summarizer, gate_evaluator]
    exact hti

/-- C1 run, loop segment: from the loop head with the counter below the
ceiling and a planner that always requests registered tools against an
unblocked gate, four transitions return to the loop head with every
counter advanced by one. -/
theorem C1_iter {β : Type} (env : GraphEnv β) (N : Nat)
    (hllm : ∀ k, ∃ d, env.llm k = some d ∧ d.done = false ∧
        d.tool_requests ≠ [] ∧
        ∀ tr ∈ d.tool_requests, env.validNames.contains tr.tool_name = true)
    (hgate : ∀ b, (env.gate b).isBlocked = false)
    (k : Nat) (sys : Sys β) (hk : k < N) (hinv : C1Inv N k sys) :
    ∃ sys2 : Sys β, C1Inv N (k + 1) sys2 ∧
      ∀ fuel, runGraph env (fuel + 4) .contextBuild sys =
        runGraph env fuel .contextBuild sys2 := by
  obtain ⟨hsc, hms, hsr, hlc, hpc, hti⟩ := hinv
  obtain ⟨d, hld, hdone, hreq, hnames⟩ := hllm sys.llm_calls
  have hguard : ¬ (stepGraph env .contextBuild sys).2.gs.max_steps ≤
      (stepGraph env .contextBuild sys).2.gs.step_count := by
    simp [stepGraph, hms, hsc]
    omega
  have hparse : parseDecision
      (env.llm (stepGraph env .contextBuild sys).2.llm_calls) = .ok d := by
    have hx : (stepGraph env .contextBuild sys).2.llm_calls = sys.llm_calls := rfl
    rw [hx, hld]
    exact (validate_ok_iff d d).mpr ⟨rfl, Or.inr ⟨hdone, hreq⟩⟩
  have hfind : d.tool_requests.find?
      (fun r => !(env.validNames.contains r.tool_name)) = none := by
    apply List.find?_eq_none.mpr
    intro tr htr
    rw [hnames tr htr]
    decide
  have hplan := planner_not_done_eq env.llm env.validNames
    (stepGraph env .contextBuild sys).2 d hguard hparse hdone hfind
  obtain ⟨req, rest, hqcons⟩ : ∃ req rest, d.tool_requests = req :: rest := by
    cases hdt : d.tool_requests with
    | nil => exact absurd hdt hreq
    | cons a l => exact ⟨a, l, rfl⟩
  have hq2 : (planner env.llm env.validNames
      (stepGraph env .contextBuild sys).2).gs.tool_queue = req :: rest := by
    rw [hplan]
    exact hqcons
  have hframe := tool_executor_frame env.registry env.timeNs env.durationMs
    (planner env.llm env.validNames (stepGraph env .contextBuild sys).2)
    req rest hq2
  have hr1 : route_after_planner (planner env.llm env.validNames
      (stepGraph env .contextBuild sys).2).gs = .toolExecutor := by
    rw [hplan]
    simp [route_after_planner, hqcons]
  have hplanner_exit : (planner env.llm env.validNames
      (stepGraph env .contextBuild sys).2).gs.exit_requested = false := by
    rw [hplan]
  have hplanner_sr : (planner env.llm env.validNames
      (stepGraph env .contextBuild sys).2).gs.stop_reason = "" := by
    rw [hplan]
    exact hsr
  have hexec_exit : (tool_executor env.registry env.timeNs env.durationMs
      (planner env.llm env.validNames (stepGraph env .contextBuild sys).2)).gs.exit_requested
        = false := by
    rw [hframe.2.2.2.1, hplanner_exit]
  have hexec_sr : (tool_executor env.registry env.timeNs env.durationMs
      (planner env.llm env.validNames (stepGraph env .contextBuild sys).2)).gs.stop_reason
        = "" := by
    rw [hframe.1, hplanner_sr]
  have hr2 : route_after_gate (gate_evaluator env.gate
      (tool_executor env.registry env.timeNs env.durationMs
        (planner env.llm env.validNames (stepGraph env .contextBuild sys).2))).gs
        = .contextBuild := by
    simp [route_after_gate, gate_evaluator, hgate, hexec_exit, hexec_sr]
  refine ⟨gate_evaluator env.gate
      (tool_executor env.registry env.timeNs env.durationMs
        (planner env.llm env.validNames (stepGraph env .contextBuild sys).2)),
    ⟨?_, ?_, ?_, ?_, ?_, ?_⟩, ?_⟩
  · show (gate_evaluator _ _).gs.step_count = k + 1
    have hg : (gate_evaluator env.gate
        (tool_executor env.registry env.timeNs env.durationMs
          (planner env.llm env.validNames (stepGraph env .contextBuild sys).2))).gs.step_count
          = (tool_executor env.registry env.timeNs env.durationMs
            (planner env.llm env.validNames (stepGraph env .contextBuild sys).2)).gs.step_count := rfl
    rw [hg, hframe.2.1, hplan]
    show (stepGraph env .contextBuild sys).2.gs.step_count + 1 = k + 1
    have : (stepGraph env .contextBuild sys).2.gs.step_count = sys.gs.step_count := rfl
    rw [this, hsc]
  · show (gate_evaluator _ _).gs.max_steps = N
    have hg : (gate_evaluator env.gate
        (tool_executor env.registry env.timeNs env.durationMs
          (planner env.llm env.validNames (stepGraph env .contextBuild sys).2))).gs.max_steps
          = (tool_executor env.registry env.timeNs env.durationMs
            (planner env.llm env.validNames (stepGraph env .contextBuild sys).2)).gs.max_steps := rfl
    rw [hg, hframe.2.2.1, hplan]
    show (stepGraph env .contextBuild sys).2.gs.max_steps = N
    have : (stepGraph env .contextBuild sys).2.gs.max_steps = sys.gs.max_steps := rfl
    rw [this, hms]
  · show (gate_evaluator _ _).gs.stop_reason = ""
    have hg : (gate_evaluator env.gate
        (tool_executor env.registry env.timeNs env.durationMs
          (planner env.llm env.validNames (stepGraph env .contextBuild sys).2))).gs.stop_reason
          = (tool_executor env.registry env.timeNs env.durationMs
            (planner env.llm env.validNames (stepGraph env .contextBuild sys).2)).gs.stop_reason := rfl
    rw [hg, hexec_sr]
  · show (gate_evaluator _ _).llm_calls = k + 1
    have hg : (gate_evaluator env.gate
        (tool_executor env.registry env.timeNs env.durationMs
          (planner env.llm env.validNames (stepGraph env .contextBuild sys).2))).llm_calls
          = (tool_executor env.registry env.timeNs env.durationMs
            (planner env.llm env.validNames (stepGraph env .contextBuild sys).2)).llm_calls := rfl
    rw [hg, hframe.2.2.2.2.1, hplan]
    show (stepGraph env .contextBuild sys).2.llm_calls + 1 = k + 1
    have : (stepGraph env .contextBuild sys).2.llm_calls = sys.llm_calls := rfl
    rw [this, hlc]
  · show (gate_evaluator _ _).planner_calls = k + 1
    have hg : (gate_evaluator env.gate
        (tool_executor env.registry env.timeNs env.durationMs
          (planner env.llm env.validNames (stepGraph env .contextBuild sys).2))).planner_calls
          = (tool_executor env.registry env.timeNs env.durationMs
            (planner env.llm env.validNames (stepGraph env .contextBuild sys).2)).planner_calls := rfl
    rw [hg, hframe.2.2.2.2.2.1, hplan]
    show (stepGraph env .contextBuild sys).2.planner_calls + 1 = k + 1
    have : (stepGraph env .contextBuild sys).2.planner_calls = sys.planner_calls := rfl
    rw [this, hpc]
  · show (gate_evaluator _ _).tool_iterations = k + 1
    have hg : (gate_evaluator env.gate
        (tool_executor env.registry env.timeNs env.durationMs
          (planner env.llm env.validNames (stepGraph env .contextBuild sys).2))).tool_iterations
          = (tool_executor env.registry env.timeNs env.durationMs
            (planner env.llm env.validNames (stepGraph env .contextBuild sys).2)).tool_iterations := rfl
    rw [hg, hframe.2.2.2.2.2.2, hplan]
    show (stepGraph env .contextBuild sys).2.tool_iterations + 1 = k + 1
    have : (stepGraph env .contextBuild sys).2.tool_iterations = sys.tool_iterations := rfl
    rw [this, hti]
  · intro fuel
    have harith : fuel + 4 = (fuel + 3) + 1 := by omega
    have e1 : runGraph env (fuel + 4) .contextBuild sys =
        runGraph env (fuel + 3) .plannerNode (stepGraph env .contextBuild sys).2 := by
      rw [harith, runGraph_succ env (fuel + 3) .contextBuild sys (by decide)]
      rfl
    have harith2 : fuel + 3 = (fuel + 2) + 1 := by omega
    have e2 : runGraph env (fuel + 3) .plannerNode (stepGraph env .contextBuild sys).2 =
        runGraph env (fuel + 2) .toolExecutor
          (planner env.llm env.validNames (stepGraph env .contextBuild sys).2) := by
      rw [harith2, runGraph_succ env (fuel + 2) .plannerNode _ (by decide),
        stepGraph_planner, hr1]
    have harith3 : fuel + 2 = (fuel + 1) + 1 := by omega
    have e3 : runGraph env (fuel + 2) .toolExecutor
        (planner env.llm env.validNames (stepGraph env .contextBuild sys).2) =
        runGraph env (fuel + 1) .gateEvaluator
          (tool_executor env.registry env.timeNs env.durationMs
            (planner env.llm env.validNames (stepGraph env .contextBuild sys).2)) := by
      rw [harith3, runGraph_succ env (fuel + 1) .toolExecutor _ (by decide),
        stepGraph_tool]
    have e4 : runGraph env (fuel + 1) .gateEvaluator
        (tool_executor env.registry env.timeNs env.durationMs
          (planner env.llm env.validNames (stepGraph env .contextBuild sys).2)) =
        runGraph env fuel .contextBuild
          (gate_evaluator env.gate
            (tool_executor env.registry env.timeNs env.durationMs
              (planner env.llm env.validNames (stepGraph env .contextBuild sys).2))) := by
      rw [runGraph_succ env fuel .gateEvaluator _ (by decide), stepGraph_gate, hr2]
    rw [e1, e2, e3, e4]

/-- C1: For every step ceiling N ≥ 0, a turn run with a planner that
always requests a registered tool, against a run with no blocking
conditions, terminates with stop reason `max_steps` after exactly N
tool-loop iterations; the (N+1)th planner invocation, with the step
counter at the ceiling, returns an empty tool queue and exit-requested
without calling the LLM collaborator — N LLM calls in total against N+1
planner invocations. -/
theorem planner_step_ceiling_termination {β : Type} (env : GraphEnv β)
    (N rid : Nat) (sid um : String) (b0 : β)
    (hllm : ∀ k, ∃ d, env.llm k = some d ∧ d.done = false ∧
        d.tool_requests ≠ [] ∧
        ∀ tr ∈ d.tool_requests, env.validNames.contains tr.tool_name = true)
    (hgate : ∀ b, (env.gate b).isBlocked = false) :
    ∃ sysF : Sys β,
      runGraph env (4 * N + 5) .contextBuild
        { gs := init_state rid sid um N, business := b0 } = (.terminal, sysF) ∧
      sysF.gs.stop_reason = "max_steps" ∧
      sysF.gs.tool_queue = [] ∧
      sysF.gs.exit_requested = true ∧
      sysF.gs.finalized = true ∧
      sysF.llm_calls = N ∧
      sysF.planner_calls = N + 1 ∧
      sysF.tool_iterations = N := by
  suffices h : ∀ j k (sys : Sys β), k + j = N → C1Inv N k sys →
      ∃ sysF : Sys β,
        runGraph env (4 * j + 5) .contextBuild sys = (.terminal, sysF) ∧
        sysF.gs.stop_reason = "max_steps" ∧ sysF.gs.tool_queue = [] ∧
        sysF.gs.exit_requested = true ∧ sysF.gs.finalized = true ∧
        sysF.llm_calls = N ∧ sysF.planner_calls = N + 1 ∧
        sysF.tool_iterations = N by
    exact h N 0 _ (by omega) ⟨rfl, rfl, rfl, rfl, rfl, rfl⟩
  intro j
  induction j with
  | zero =>
      intro k sys hkj hinv
      have hkN : k = N := by omega
      rw [hkN] at hinv
      rw [show 4 * 0 + 5 = 5 by norm_num]
      exact C1_finish env hgate N sys hinv
  | succ j ih =>
      intro k sys hkj hinv
      obtain ⟨sys2, hinv2, hrun⟩ := C1_iter env N hllm hgate k sys (by omega) hinv
      have h4 : 4 * (j + 1) + 5 = (4 * j + 5) + 4 := by ring
      rw [h4, hrun (4 * j + 5)]
      exact ih (k + 1) sys2 (by omega) hinv2

/-- C1 witness: with ceiling 1 and the concrete always-tool planner, the
turn terminates in nine transitions with one tool iteration, one LLM call
and two planner invocations. -/
theorem planner_step_ceiling_termination_witness :
    ∃ sysF : Sys Unit,
      runGraph loopEnv (4 * 1 + 5) .contextBuild loopSys0 = (.terminal, sysF) ∧
      sysF.gs.stop_reason = "max_steps" ∧
      sysF.gs.tool_queue = [] ∧
      sysF.gs.exit_requested = true ∧
      sysF.gs.finalized = true ∧
      sysF.llm_calls = 1 ∧
      sysF.planner_calls = 1 + 1 ∧
      sysF.tool_iterations = 1 :=
  planner_step_ceiling_termination loopEnv 1 1 "s1" "list people" ()
    (fun _ => ⟨decisionLoop, rfl, rfl, by decide, by decide⟩)
    (fun _ => rfl)

end SRED
